import Mathlib

/-!
Verification of the Weather Archive Gateway (`src/app.py`).

The development shallowly embeds the Flask service: JSON documents are the
inductive `Json` below, the Python `json` codec (`json.dumps(..., indent=2)`
and `json.loads`) is modelled by `dumps`/`loads`, the request validators
`validate_date_format` / `validate_coordinates` are translated from their
Python bodies (including Python quirks: `strptime` leniency, `bool` being an
`int` subclass, `TypeError` escaping the `except ValueError`), and the three
route handlers become pure functions over an explicit storage state and an
oracle for the remote weather source.

Model boundaries (stated once, used throughout):
* JSON numbers are modelled as exact integers.  Python floats (IEEE doubles
  and their shortest-repr serialization) are outside the embedding; numeric
  literals with a fractional part or exponent make the modelled `loads`
  fail, and `NaN`/`Infinity` constants are likewise unmodelled.
* Lean `Char` cannot hold lone UTF-16 surrogates, so the modelled `loads`
  rejects a `\uXXXX` escape denoting an unpaired surrogate (CPython builds a
  lone-surrogate `str` there).  The modelled `dumps` never emits one.
* Character classes (`\d` in `_strptime`'s regexes) are modelled over ASCII;
  CPython's `re` would additionally accept non-ASCII Unicode decimal digits.
-/

namespace WeatherGateway

/-- A parsed JSON document, as produced by Python's `json.loads`: `None`,
`bool`, numbers (integers in this model), `str`, `list`, `dict`.  Object
member lists model `dict` insertion order. -/
inductive Json where
  | null
  | bool (b : Bool)
  | num (n : Int)
  | str (s : String)
  | arr (elts : List Json)
  | obj (members : List (String × Json))
deriving BEq, Repr

/-! ## Serializer: `json.dumps(value, indent=2)`

CPython with `indent=2` pretty-prints: a non-empty container opens with a
newline, indents each item by two more spaces than the current level, joins
items with `,` followed by the newline-and-indent, and closes on a fresh
line at the container's own level.  `ensure_ascii=True` (the default)
escapes `"`, `\`, control characters and every non-ASCII character. -/

/-- The decimal digit character for `d < 10`. -/
def digitChar (d : Nat) : Char := Char.ofNat (48 + d)

/-- Decimal digits of `n`, most significant first: the characters of
Python's `str(n)` for a non-negative `n`. -/
def natChars (n : Nat) : List Char :=
  if n < 10 then [digitChar n]
  else natChars (n / 10) ++ [digitChar (n % 10)]
termination_by n
decreasing_by simp_wf; omega

/-- Characters of Python's `str(i)` for an integer: optional minus sign and
decimal digits. -/
def intChars (i : Int) : List Char :=
  if i < 0 then '-' :: natChars i.natAbs else natChars i.natAbs

/-- Lower-case hexadecimal digit character for `d < 16`, as CPython's
`ensure_ascii` escaper emits. -/
def hexChar (d : Nat) : Char :=
  if d < 10 then Char.ofNat (48 + d) else Char.ofNat (87 + d)

/-- A `\uXXXX` escape for a code unit `n < 0x10000`. -/
def uEscape (n : Nat) : List Char :=
  ['\\', 'u', hexChar (n / 4096 % 16), hexChar (n / 256 % 16),
   hexChar (n / 16 % 16), hexChar (n % 16)]

/-- One character of a JSON string, escaped as `json.dumps` (with the
default `ensure_ascii=True`) writes it: the two-character shorthands for
`"`, `\` and the common control characters, `\uXXXX` for the remaining
control and all non-ASCII characters (a surrogate pair beyond the BMP), and
the character itself for printable ASCII. -/
def escChar (c : Char) : List Char :=
  if c = '"' then ['\\', '"']
  else if c = '\\' then ['\\', '\\']
  else if c = '\n' then ['\\', 'n']
  else if c = '\r' then ['\\', 'r']
  else if c = '\t' then ['\\', 't']
  else if c.toNat = 8 then ['\\', 'b']
  else if c.toNat = 12 then ['\\', 'f']
  else if 32 ≤ c.toNat ∧ c.toNat ≤ 126 then [c]
  else if c.toNat < 65536 then uEscape c.toNat
  else uEscape (55296 + (c.toNat - 65536) / 1024) ++
       uEscape (56320 + (c.toNat - 65536) % 1024)

/-- A JSON string literal: quotes around the escaped characters. -/
def escString (s : String) : List Char :=
  '"' :: (s.data.flatMap escChar ++ ['"'])

/-- The newline-and-indent separator at nesting level `k` for `indent=2`. -/
def jNewline (k : Nat) : List Char := '\n' :: List.replicate (2 * k) ' '

mutual

/-- Characters of `json.dumps(v, indent=2)` with the surrounding context at
nesting level `lvl`. -/
def dumpVal (lvl : Nat) : Json → List Char
  | .null => 'n' :: ['u', 'l', 'l']
  | .bool true => 't' :: ['r', 'u', 'e']
  | .bool false => 'f' :: ['a', 'l', 's', 'e']
  | .num n => intChars n
  | .str s => escString s
  | .arr [] => ['[', ']']
  | .arr (x :: xs) =>
      '[' :: (jNewline (lvl + 1) ++ dumpVal (lvl + 1) x ++
              dumpMoreElts (lvl + 1) xs ++ jNewline lvl ++ [']'])
  | .obj [] => ['{', '}']
  | .obj (kv :: kvs) =>
      '{' :: (jNewline (lvl + 1) ++ escString kv.1 ++ ':' :: ' ' ::
              dumpVal (lvl + 1) kv.2 ++
              dumpMoreMembers (lvl + 1) kvs ++ jNewline lvl ++ ['}'])

/-- The remaining array items, each preceded by the `,` item separator and
the newline-and-indent. -/
def dumpMoreElts (lvl : Nat) : List Json → List Char
  | [] => []
  | x :: xs => ',' :: (jNewline lvl ++ dumpVal lvl x ++ dumpMoreElts lvl xs)

/-- The remaining object members, each preceded by `,`, the
newline-and-indent, the quoted key and the `: ` key separator. -/
def dumpMoreMembers (lvl : Nat) : List (String × Json) → List Char
  | [] => []
  | kv :: kvs => ',' :: (jNewline lvl ++ escString kv.1 ++ ':' :: ' ' ::
                 dumpVal lvl kv.2 ++ dumpMoreMembers lvl kvs)

end

/-- `json.dumps(v, indent=2)`: the string written to the blob store by the
store handler (`src/app.py` line 158). -/
def dumps (v : Json) : String := ⟨dumpVal 0 v⟩

/-! ## Parser: `json.loads`

The model follows CPython's pure-Python scanner (`json/scanner.py`,
`json/decoder.py`) with the default strict settings: whitespace is
`space`, `\t`, `\n`, `\r`; numbers follow `NUMBER_RE` (no leading zeros);
strings reject unescaped control characters and unknown escapes; objects
require string keys and build a `dict` (last duplicate wins, first
position kept); a document must be a single value with only trailing
whitespace. -/

/-- JSON whitespace, as in the decoder's `[ \t\n\r]*` skip. -/
def jsonWs (c : Char) : Bool :=
  decide (c = ' ' ∨ c = '\t' ∨ c = '\n' ∨ c = '\r')

/-- Drop leading JSON whitespace. -/
def dropWs : List Char → List Char
  | c :: cs => if jsonWs c then dropWs cs else c :: cs
  | [] => []

/-- ASCII decimal digit test (`\d` over the modelled alphabet). -/
def isDig (c : Char) : Bool := 48 ≤ c.toNat && c.toNat ≤ 57

/-- Split off the longest leading run of decimal digits. -/
def grabDigits : List Char → List Char × List Char
  | c :: cs =>
      if isDig c then
        let p := grabDigits cs
        (c :: p.1, p.2)
      else ([], c :: cs)
  | [] => ([], [])

/-- The number a digit run denotes. -/
def digitsVal (ds : List Char) : Nat :=
  ds.foldl (fun acc c => acc * 10 + (c.toNat - 48)) 0

/-- Value of one hexadecimal digit, either case (as `int(s, 16)` accepts). -/
def hexVal (c : Char) : Option Nat :=
  if 48 ≤ c.toNat ∧ c.toNat ≤ 57 then some (c.toNat - 48)
  else if 97 ≤ c.toNat ∧ c.toNat ≤ 102 then some (c.toNat - 87)
  else if 65 ≤ c.toNat ∧ c.toNat ≤ 70 then some (c.toNat - 55)
  else none

/-- Value of a four-digit hexadecimal escape body. -/
def hexQuad (a b c d : Char) : Option Nat := do
  let va ← hexVal a
  let vb ← hexVal b
  let vc ← hexVal c
  let vd ← hexVal d
  return ((va * 16 + vb) * 16 + vc) * 16 + vd

/-- The single-character escapes the decoder's `BACKSLASH` table knows. -/
def shortEscape : Char → Option Char
  | '"' => some '"'
  | '\\' => some '\\'
  | '/' => some '/'
  | 'b' => some (Char.ofNat 8)
  | 'f' => some (Char.ofNat 12)
  | 'n' => some '\n'
  | 'r' => some '\r'
  | 't' => some '\t'
  | _ => none

/-- Scan a JSON string body after the opening quote, returning the decoded
characters and the input after the closing quote.  Strict mode: an
unescaped control character, an unknown escape, a malformed `\uXXXX` or an
unterminated string all fail.  A `\uXXXX` escape denoting an unpaired
UTF-16 surrogate also fails in the model (see the header note). -/
def readStr (cs : List Char) : Option (List Char × List Char) :=
  match cs with
  | [] => none
  | '"' :: rest => some ([], rest)
  | '\\' :: rest =>
      match rest with
      | 'u' :: a :: b :: c :: d :: rest2 =>
          match hexQuad a b c d with
          | none => none
          | some n =>
              if 55296 ≤ n ∧ n ≤ 56319 then
                match rest2 with
                | '\\' :: 'u' :: a2 :: b2 :: c2 :: d2 :: rest3 =>
                    match hexQuad a2 b2 c2 d2 with
                    | none => none
                    | some n2 =>
                        if 56320 ≤ n2 ∧ n2 ≤ 57343 then
                          match readStr rest3 with
                          | some p =>
                              some (Char.ofNat (65536 + (n - 55296) * 1024 +
                                    (n2 - 56320)) :: p.1, p.2)
                          | none => none
                        else none
                | _ => none
              else if 56320 ≤ n ∧ n ≤ 57343 then none
              else
                match readStr rest2 with
                | some p => some (Char.ofNat n :: p.1, p.2)
                | none => none
      | e :: rest2 =>
          match shortEscape e with
          | some ch =>
              match readStr rest2 with
              | some p => some (ch :: p.1, p.2)
              | none => none
          | none => none
      | [] => none
  | c :: rest =>
      if c.toNat < 32 then none
      else
        match readStr rest with
        | some p => some (c :: p.1, p.2)
        | none => none
termination_by cs.length
decreasing_by all_goals (simp; try omega)

/-- The unsigned integer part of `NUMBER_RE`: `0` or a digit run without a
leading zero. -/
def readNatPart : List Char → Option (Nat × List Char)
  | '0' :: r => some (0, r)
  | c :: r =>
      if isDig c then
        let p := grabDigits r
        some (digitsVal (c :: p.1), p.2)
      else none
  | [] => none

/-- Finish a number: `NUMBER_RE` would continue into a fraction or exponent
here, producing a Python float, which the model does not represent, so
those inputs fail (header note). -/
def readNumTail (v : Int) (r : List Char) : Option (Json × List Char) :=
  match r with
  | [] => some (.num v, [])
  | c :: t => if c == '.' || c == 'e' || c == 'E' then none else some (.num v, c :: t)

/-- Parse a JSON number (integers in the model). -/
def readNum (cs : List Char) : Option (Json × List Char) :=
  match cs with
  | '-' :: cs1 =>
      match readNatPart cs1 with
      | some (n, r) => readNumTail (-(n : Int)) r
      | none => none
  | _ =>
      match readNatPart cs with
      | some (n, r) => readNumTail (n : Int) r
      | none => none

/-- Update-or-append for the `dict` the object decoder builds: an existing
key keeps its position but takes the later value. -/
def dictPut (acc : List (String × Json)) (k : String) (v : Json) :
    List (String × Json) :=
  match acc with
  | [] => [(k, v)]
  | (k0, v0) :: t =>
      if k0 = k then (k0, v) :: t else (k0, v0) :: dictPut t k v

/-- Build the `dict` from the scanned member pairs in order. -/
def buildDict : List (String × Json) → List (String × Json) :=
  go []
where
  /-- Left fold of `dictPut` over the scanned pairs. -/
  go (acc : List (String × Json)) : List (String × Json) → List (String × Json)
    | [] => acc
    | (k, v) :: t => go (dictPut acc k v) t

mutual

/-- Scan one JSON value.  `fuel` only bounds the recursion; `loads` supplies
more fuel than any input can consume. -/
def parseVal (fuel : Nat) (cs : List Char) : Option (Json × List Char) :=
  match fuel with
  | 0 => none
  | fuel + 1 =>
      match dropWs cs with
      | 'n' :: 'u' :: 'l' :: 'l' :: r => some (.null, r)
      | 't' :: 'r' :: 'u' :: 'e' :: r => some (.bool true, r)
      | 'f' :: 'a' :: 'l' :: 's' :: 'e' :: r => some (.bool false, r)
      | '"' :: r =>
          match readStr r with
          | some p => some (.str ⟨p.1⟩, p.2)
          | none => none
      | '[' :: r =>
          match dropWs r with
          | ']' :: r2 => some (.arr [], r2)
          | cs2 =>
              match parseElts fuel cs2 with
              | some p => some (.arr p.1, p.2)
              | none => none
      | '{' :: r =>
          match dropWs r with
          | '}' :: r2 => some (.obj [], r2)
          | cs2 =>
              match parseMems fuel cs2 with
              | some p => some (.obj (buildDict p.1), p.2)
              | none => none
      | c :: r =>
          if c == '-' || isDig c then readNum (c :: r) else none
      | [] => none

/-- Scan the one-or-more comma-separated items of a non-empty array, up to
and including the closing `]`. -/
def parseElts (fuel : Nat) (cs : List Char) : Option (List Json × List Char) :=
  match fuel with
  | 0 => none
  | fuel + 1 =>
      match parseVal fuel cs with
      | none => none
      | some (v, r) =>
          match dropWs r with
          | ',' :: r2 =>
              match parseElts fuel r2 with
              | some p => some (v :: p.1, p.2)
              | none => none
          | ']' :: r2 => some ([v], r2)
          | _ => none

/-- Scan the one-or-more `"key": value` members of a non-empty object, up
to and including the closing `}`, returning the pairs in scan order. -/
def parseMems (fuel : Nat) (cs : List Char) :
    Option (List (String × Json) × List Char) :=
  match fuel with
  | 0 => none
  | fuel + 1 =>
      match dropWs cs with
      | '"' :: r =>
          match readStr r with
          | none => none
          | some (k, r1) =>
              match dropWs r1 with
              | ':' :: r2 =>
                  match parseVal fuel r2 with
                  | none => none
                  | some (v, r3) =>
                      match dropWs r3 with
                      | ',' :: r4 =>
                          match parseMems fuel r4 with
                          | some p => some ((⟨k⟩, v) :: p.1, p.2)
                          | none => none
                      | '}' :: r4 => some ([(⟨k⟩, v)], r4)
                      | _ => none
              | _ => none
      | _ => none

end

/-- `json.loads(s)` in the model: one value, then only trailing whitespace.
Fuel `s.length + 1` exceeds what any parse can use, since every recursion
step consumes input. -/
def loads (s : String) : Option Json :=
  match parseVal (s.data.length + 1) s.data with
  | some (v, r) => if dropWs r = [] then some v else none
  | none => none

/-! ## Round-trip groundwork: decimal digits -/

/-- A decimal digit character carries its value and passes `isDig`. -/
theorem digitChar_spec : ∀ d, d < 10 →
    (digitChar d).toNat = 48 + d ∧ isDig (digitChar d) = true := by decide

theorem natChars_ne_nil (n : Nat) : natChars n ≠ [] := by
  rw [natChars.eq_def]
  split
  · simp
  · simp

theorem natChars_digits (n : Nat) : ∀ c ∈ natChars n, isDig c = true := by
  induction n using Nat.strong_induction_on with
  | _ n ih =>
    rw [natChars.eq_def]
    split
    · intro c hc
      rw [List.mem_singleton] at hc
      subst hc
      exact (digitChar_spec n (by omega)).2
    · intro c hc
      rw [List.mem_append] at hc
      rcases hc with hc | hc
      · exact ih (n / 10) (by omega) c hc
      · rw [List.mem_singleton] at hc
        subst hc
        exact (digitChar_spec (n % 10) (Nat.mod_lt _ (by omega))).2

theorem digitsVal_append_digit (l : List Char) (c : Char) :
    digitsVal (l ++ [c]) = digitsVal l * 10 + (c.toNat - 48) := by
  simp [digitsVal, List.foldl_append]

theorem digitsVal_natChars (n : Nat) : digitsVal (natChars n) = n := by
  induction n using Nat.strong_induction_on with
  | _ n ih =>
    rw [natChars.eq_def]
    split
    · simp [digitsVal, (digitChar_spec n (by omega)).1]
    · rw [digitsVal_append_digit, ih (n / 10) (by omega),
        (digitChar_spec (n % 10) (Nat.mod_lt _ (by omega))).1]
      omega

theorem natChars_head_ne_zero (n : Nat) (hn : n ≠ 0) :
    ∀ c t, natChars n = c :: t → c ≠ '0' := by
  induction n using Nat.strong_induction_on with
  | _ n ih =>
    intro c t hct
    rw [natChars.eq_def] at hct
    split at hct
    · rename_i h10
      rw [List.cons.injEq] at hct
      intro hc
      rw [← hct.1] at hc
      have := (digitChar_spec n (by omega)).1
      rw [hc] at this
      simp at this
      omega
    · rename_i h10
      obtain ⟨c0, t0, h0⟩ : ∃ c0 t0, natChars (n / 10) = c0 :: t0 := by
        rcases h : natChars (n / 10) with _ | ⟨c0, t0⟩
        · exact absurd h (natChars_ne_nil _)
        · exact ⟨c0, t0, rfl⟩
      rw [h0] at hct
      simp only [List.cons_append, List.cons.injEq] at hct
      rw [← hct.1]
      exact ih (n / 10) (by omega) (by omega) c0 t0 h0

/-- The tokens that may legitimately follow a serialized number: end of
input, or a character that neither extends the digit run nor starts a
fraction or exponent. -/
def numStop : List Char → Bool
  | [] => true
  | c :: _ => !(isDig c || c == '.' || c == 'e' || c == 'E')

theorem grabDigits_stop (r : List Char) (h : numStop r = true) :
    grabDigits r = ([], r) := by
  cases r with
  | nil => rfl
  | cons c t =>
    simp only [numStop, Bool.not_eq_eq_eq_not, Bool.not_true, Bool.or_eq_false_iff] at h
    rw [grabDigits.eq_def]
    simp [h.1.1.1]

theorem grabDigits_run (ds : List Char) (hds : ∀ c ∈ ds, isDig c = true)
    (rest : List Char) (hrest : grabDigits rest = ([], rest)) :
    grabDigits (ds ++ rest) = (ds, rest) := by
  induction ds with
  | nil => simpa using hrest
  | cons c t ih =>
    have hc : isDig c = true := hds c (by simp)
    have ht := ih (fun x hx => hds x (by simp [hx]))
    rw [List.cons_append, grabDigits.eq_def]
    simp [hc, ht]

theorem readNumTail_stop (v : Int) (r : List Char) (h : numStop r = true) :
    readNumTail v r = some (.num v, r) := by
  cases r with
  | nil => rfl
  | cons c t =>
    simp only [numStop, Bool.not_eq_eq_eq_not, Bool.not_true, Bool.or_eq_false_iff] at h
    simp [readNumTail, h.1.1.2, h.1.2, h.2]

theorem readNatPart_natChars (n : Nat) (rest : List Char)
    (hrest : grabDigits rest = ([], rest)) :
    readNatPart (natChars n ++ rest) = some (n, rest) := by
  by_cases hn : n = 0
  · subst hn
    have h0 : natChars 0 = ['0'] := by
      rw [natChars.eq_def]
      norm_num
      decide
    rw [h0]
    rfl
  · obtain ⟨c, t, hct⟩ : ∃ c t, natChars n = c :: t := by
      rcases h : natChars n with _ | ⟨c, t⟩
      · exact absurd h (natChars_ne_nil _)
      · exact ⟨c, t, rfl⟩
    have hc0 : c ≠ '0' := natChars_head_ne_zero n hn c t hct
    have hcd : isDig c = true :=
      natChars_digits n c (by rw [hct]; exact List.mem_cons_self _ _)
    have htd : ∀ x ∈ t, isDig x = true :=
      fun x hx => natChars_digits n x (by rw [hct]; exact List.mem_cons_of_mem _ hx)
    rw [hct, List.cons_append, readNatPart.eq_def]
    have hgrab := grabDigits_run t htd rest hrest
    split
    · rename_i heq
      rw [List.cons.injEq] at heq
      exact absurd heq.1 hc0
    · rename_i c' r' heq
      rw [List.cons.injEq] at heq
      obtain ⟨rfl, rfl⟩ := heq
      simp only [hcd, if_pos]
      rw [hgrab]
      have : digitsVal (c :: t) = n := by rw [← hct]; exact digitsVal_natChars n
      simp [this]
    · rename_i heq
      exact absurd heq (by simp)

theorem isDig_ne_minus (c : Char) (h : isDig c = true) : c ≠ '-' := by
  intro hc
  rw [hc] at h
  exact absurd h (by decide)

theorem readNum_intChars (i : Int) (rest : List Char) (h : numStop rest = true) :
    readNum (intChars i ++ rest) = some (.num i, rest) := by
  have hstop : grabDigits rest = ([], rest) := grabDigits_stop rest h
  by_cases hi : i < 0
  · have harg : intChars i ++ rest = '-' :: (natChars i.natAbs ++ rest) := by
      simp [intChars, hi]
    have hv : (-(i.natAbs : Int)) = i := by omega
    rw [harg, readNum.eq_def]
    simp only [readNatPart_natChars _ _ hstop, readNumTail_stop _ _ h, hv]
  · obtain ⟨c, t, hct⟩ : ∃ c t, natChars i.natAbs = c :: t := by
      rcases hh : natChars i.natAbs with _ | ⟨c, t⟩
      · exact absurd hh (natChars_ne_nil _)
      · exact ⟨c, t, rfl⟩
    have hcd : isDig c = true :=
      natChars_digits _ c (by rw [hct]; exact List.mem_cons_self _ _)
    have hcm : c ≠ '-' := isDig_ne_minus c hcd
    have harg : intChars i ++ rest = c :: (t ++ rest) := by
      simp [intChars, hi, hct]
    have hv : ((i.natAbs : Nat) : Int) = i := by omega
    rw [harg, readNum.eq_def]
    split
    · rename_i heq
      rw [List.cons.injEq] at heq
      exact absurd heq.1 hcm
    · have hrp := readNatPart_natChars i.natAbs rest hstop
      rw [hct, List.cons_append] at hrp
      simp only [hrp, readNumTail_stop _ _ h, hv]

/-! ## Round-trip groundwork: strings -/

/-- The valid-scalar range of a `Char`, in `Nat` form. -/
theorem char_toNat_valid (c : Char) :
    c.toNat < 55296 ∨ (57343 < c.toNat ∧ c.toNat < 1114112) := by
  have h := c.valid
  have he : c.toNat = c.val.toNat := rfl
  rcases h with h | h
  · left
    rw [he]
    exact h
  · right
    rw [he]
    exact h

theorem hexVal_hexChar : ∀ d, d < 16 → hexVal (hexChar d) = some d := by decide

theorem hexQuad_spec (n : Nat) (h : n < 65536) :
    hexQuad (hexChar (n / 4096 % 16)) (hexChar (n / 256 % 16))
      (hexChar (n / 16 % 16)) (hexChar (n % 16)) = some n := by
  have h16 : ∀ k : Nat, k % 16 < 16 := fun k => Nat.mod_lt _ (by omega)
  simp [hexQuad, hexVal_hexChar _ (h16 _)]
  omega

/-- Scanning a two-character escape `\e` recovers the escaped character. -/
theorem readStr_shortEsc (e ch : Char) (he : shortEscape e = some ch)
    (hne : e ≠ 'u') (rest : List Char) :
    readStr ('\\' :: e :: rest) = (readStr rest).map (fun p => (ch :: p.1, p.2)) := by
  rw [readStr]
  · split
    · rename_i ch2 heq
      rw [he, Option.some.injEq] at heq
      subst heq
      cases readStr rest <;> rfl
    · rename_i heq
      rw [he] at heq
      exact Option.noConfusion heq
  · exact fun a b c d r hhead _ => hne hhead

/-- Scanning an unescaped printable character keeps it. -/
theorem readStr_plain (c : Char) (h1 : c ≠ '"') (h2 : c ≠ '\\')
    (h3 : ¬ c.toNat < 32) (rest : List Char) :
    readStr (c :: rest) = (readStr rest).map (fun p => (c :: p.1, p.2)) := by
  rw [readStr]
  · rw [if_neg h3]
    cases readStr rest <;> rfl
  · exact fun hc => h1 hc
  · exact fun hc => h2 hc

/-- Scanning a non-surrogate `\uXXXX` escape recovers its scalar. -/
theorem readStr_uEsc (n : Nat) (hlt : n < 65536)
    (hs1 : ¬ (55296 ≤ n ∧ n ≤ 56319)) (hs2 : ¬ (56320 ≤ n ∧ n ≤ 57343))
    (rest : List Char) :
    readStr (uEscape n ++ rest) =
      (readStr rest).map (fun p => (Char.ofNat n :: p.1, p.2)) := by
  simp only [uEscape, List.cons_append, List.nil_append]
  rw [readStr]
  simp only [hexQuad_spec n hlt]
  rw [if_neg hs1, if_neg hs2]
  cases readStr rest <;> rfl

/-- Scanning a surrogate-pair escape recovers the astral scalar. -/
theorem readStr_uEscPair (n1 n2 : Nat)
    (h1 : 55296 ≤ n1 ∧ n1 ≤ 56319) (h2 : 56320 ≤ n2 ∧ n2 ≤ 57343)
    (rest : List Char) :
    readStr (uEscape n1 ++ (uEscape n2 ++ rest)) =
      (readStr rest).map
        (fun p => (Char.ofNat (65536 + (n1 - 55296) * 1024 + (n2 - 56320)) ::
          p.1, p.2)) := by
  simp only [uEscape, List.cons_append, List.nil_append]
  rw [readStr]
  simp only [hexQuad_spec n1 (by omega : n1 < 65536)]
  rw [if_pos h1]
  simp only [hexQuad_spec n2 (by omega : n2 < 65536)]
  rw [if_pos h2]
  cases readStr rest <;> rfl

/-- Scanning one escaped character recovers it and continues. -/
theorem readStr_escChar (c : Char) (rest : List Char) :
    readStr (escChar c ++ rest) =
      (readStr rest).map (fun p => (c :: p.1, p.2)) := by
  simp only [escChar]
  split_ifs with h1 h2 h3 h4 h5 h6 h7 h8 h9
  · subst h1
    exact readStr_shortEsc '"' '"' (by decide) (by decide) rest
  · subst h2
    exact readStr_shortEsc '\\' '\\' (by decide) (by decide) rest
  · subst h3
    exact readStr_shortEsc 'n' '\n' (by decide) (by decide) rest
  · subst h4
    exact readStr_shortEsc 'r' '\r' (by decide) (by decide) rest
  · subst h5
    exact readStr_shortEsc 't' '\t' (by decide) (by decide) rest
  · have hc : Char.ofNat 8 = c := by rw [← h6, Char.ofNat_toNat]
    rw [← hc]
    exact readStr_shortEsc 'b' (Char.ofNat 8) (by decide) (by decide) rest
  · have hc : Char.ofNat 12 = c := by rw [← h7, Char.ofNat_toNat]
    rw [← hc]
    exact readStr_shortEsc 'f' (Char.ofNat 12) (by decide) (by decide) rest
  · simp only [List.cons_append, List.nil_append]
    exact readStr_plain c h1 h2 (by omega) rest
  · have hval := char_toNat_valid c
    have hs1 : ¬ (55296 ≤ c.toNat ∧ c.toNat ≤ 56319) := by omega
    have hs2 : ¬ (56320 ≤ c.toNat ∧ c.toNat ≤ 57343) := by omega
    have h := readStr_uEsc c.toNat h9 hs1 hs2 rest
    rwa [Char.ofNat_toNat] at h
  · have hval := char_toNat_valid c
    have hge : 65536 ≤ c.toNat := by omega
    have hup : c.toNat < 1114112 := by omega
    have h := readStr_uEscPair (55296 + (c.toNat - 65536) / 1024)
      (56320 + (c.toNat - 65536) % 1024) (by omega) (by omega) rest
    have harith : 65536 + (55296 + (c.toNat - 65536) / 1024 - 55296) * 1024 +
        (56320 + (c.toNat - 65536) % 1024 - 56320) = c.toNat := by omega
    rw [harith, Char.ofNat_toNat] at h
    rw [List.append_assoc]
    exact h

/-- Scanning an escaped character run stops at the closing quote. -/
theorem readStr_escaped (l : List Char) (rest : List Char) :
    readStr (l.flatMap escChar ++ '"' :: rest) = some (l, rest) := by
  induction l with
  | nil =>
    rw [List.flatMap_nil, List.nil_append, readStr]
  | cons c t ih =>
    rw [List.flatMap_cons, List.append_assoc, readStr_escChar, ih]
    rfl

/-! ## Round-trip groundwork: whitespace, token heads, dict building -/

theorem dropWs_past_ws_run (pre : List Char) (h : ∀ c ∈ pre, jsonWs c = true)
    (x : List Char) : dropWs (pre ++ x) = dropWs x := by
  induction pre with
  | nil => rfl
  | cons c t ih =>
    rw [List.cons_append, dropWs, if_pos (h c (List.mem_cons_self _ _))]
    exact ih (fun d hd => h d (List.mem_cons_of_mem _ hd))

theorem dropWs_not_ws (c : Char) (h : jsonWs c = false) (x : List Char) :
    dropWs (c :: x) = c :: x := by
  rw [dropWs, if_neg]
  rw [h]
  exact Bool.false_ne_true

theorem jNewline_ws (k : Nat) : ∀ c ∈ jNewline k, jsonWs c = true := by
  intro c hc
  rcases List.mem_cons.mp hc with hc | hc
  · subst hc
    decide
  · rw [List.eq_of_mem_replicate hc]
    decide

theorem jNewline_length (k : Nat) : (jNewline k).length = 2 * k + 1 := by
  simp [jNewline]

/-- A digit character is none of the parser's structural tokens. -/
theorem isDig_fences (c : Char) (h : isDig c = true) :
    jsonWs c = false ∧ c ≠ 'n' ∧ c ≠ 't' ∧ c ≠ 'f' ∧ c ≠ '"' ∧ c ≠ '[' ∧
      c ≠ '{' ∧ c ≠ ']' ∧ c ≠ '}' := by
  simp only [isDig, Bool.and_eq_true, decide_eq_true_eq] at h
  refine ⟨?_, ?_, ?_, ?_, ?_, ?_, ?_, ?_, ?_⟩
  · simp only [jsonWs, decide_eq_false_iff_not, not_or]
    refine ⟨?_, ?_, ?_, ?_⟩ <;> (intro he; rw [he] at h; simp at h)
  all_goals (intro he; rw [he] at h; simp at h)

/-- The first character of a serialized value: never whitespace, never a
closing token. -/
theorem dumpVal_head (lvl : Nat) (v : Json) :
    ∃ c t, dumpVal lvl v = c :: t ∧ jsonWs c = false ∧ c ≠ ']' ∧ c ≠ '}' := by
  cases v with
  | null => refine ⟨'n', ['u', 'l', 'l'], rfl, ?_, ?_, ?_⟩ <;> decide
  | bool b =>
    cases b
    · refine ⟨'f', _, rfl, ?_, ?_, ?_⟩ <;> decide
    · refine ⟨'t', _, rfl, ?_, ?_, ?_⟩ <;> decide
  | num n =>
    by_cases hn : n < 0
    · refine ⟨'-', natChars n.natAbs, ?_, by decide, by decide, by decide⟩
      simp [dumpVal, intChars, hn]
    · obtain ⟨c, t, hct⟩ : ∃ c t, natChars n.natAbs = c :: t := by
        rcases hh : natChars n.natAbs with _ | ⟨c, t⟩
        · exact absurd hh (natChars_ne_nil _)
        · exact ⟨c, t, rfl⟩
      have hcd : isDig c = true :=
        natChars_digits _ c (by rw [hct]; exact List.mem_cons_self _ _)
      obtain ⟨hws, -, -, -, -, -, -, hbr, hbc⟩ := isDig_fences c hcd
      exact ⟨c, t, by simp [dumpVal, intChars, hn, hct], hws, hbr, hbc⟩
  | str s => refine ⟨'"', _, rfl, ?_, ?_, ?_⟩ <;> decide
  | arr elts =>
    cases elts
    · refine ⟨'[', _, rfl, ?_, ?_, ?_⟩ <;> decide
    · refine ⟨'[', _, rfl, ?_, ?_, ?_⟩ <;> decide
  | obj members =>
    cases members
    · refine ⟨'{', _, rfl, ?_, ?_, ?_⟩ <;> decide
    · refine ⟨'{', _, rfl, ?_, ?_, ?_⟩ <;> decide

theorem dumpVal_length_pos (lvl : Nat) (v : Json) :
    1 ≤ (dumpVal lvl v).length := by
  obtain ⟨c, t, hct, -, -, -⟩ := dumpVal_head lvl v
  rw [hct]
  simp

/-- Leading whitespace followed by a serialized value strips to the value. -/
theorem dropWs_onto_dumpVal (pre : List Char) (h : ∀ c ∈ pre, jsonWs c = true)
    (lvl : Nat) (v : Json) (x : List Char) :
    dropWs (pre ++ (dumpVal lvl v ++ x)) = dumpVal lvl v ++ x := by
  obtain ⟨c, t, hct, hws, -, -⟩ := dumpVal_head lvl v
  rw [dropWs_past_ws_run pre h, hct, List.cons_append]
  exact dropWs_not_ws c hws _

/-! Well-formedness: every object (recursively) has pairwise-distinct keys,
as any JSON document arising from a Python `dict` does. -/

/-- Pairwise-distinct key list. -/
def distinctKeys : List String → Bool
  | [] => true
  | k :: t => decide (k ∉ t) && distinctKeys t

mutual

/-- A document all of whose objects have distinct keys (true of every value
produced by `json.loads` and of every Python `dict` tree). -/
def wfVal : Json → Bool
  | .null => true
  | .bool _ => true
  | .num _ => true
  | .str _ => true
  | .arr elts => wfElts elts
  | .obj members => distinctKeys (members.map Prod.fst) && wfMems members

/-- `wfVal` over an array's items. -/
def wfElts : List Json → Bool
  | [] => true
  | x :: xs => wfVal x && wfElts xs

/-- `wfVal` over an object's member values. -/
def wfMems : List (String × Json) → Bool
  | [] => true
  | kv :: kvs => wfVal kv.2 && wfMems kvs

end

theorem dictPut_fresh (acc : List (String × Json)) (k : String) (v : Json)
    (h : ∀ kv ∈ acc, kv.1 ≠ k) : dictPut acc k v = acc ++ [(k, v)] := by
  induction acc with
  | nil => rfl
  | cons kv0 t ih =>
    obtain ⟨k0, v0⟩ := kv0
    rw [dictPut, if_neg (h (k0, v0) (List.mem_cons_self _ _))]
    rw [ih (fun kv hkv => h kv (List.mem_cons_of_mem _ hkv)), List.cons_append]

theorem buildDict_go_fresh :
    ∀ (kvs acc : List (String × Json)),
      distinctKeys (kvs.map Prod.fst) = true →
      (∀ kv ∈ acc, kv.1 ∉ kvs.map Prod.fst) →
      buildDict.go acc kvs = acc ++ kvs := by
  intro kvs
  induction kvs with
  | nil =>
    intro acc _ _
    simp [buildDict.go]
  | cons kv t ih =>
    intro acc hdist hdisj
    obtain ⟨k, v⟩ := kv
    simp only [List.map_cons, distinctKeys, Bool.and_eq_true,
      decide_eq_true_eq] at hdist
    have hfresh : ∀ kv ∈ acc, kv.1 ≠ k := by
      intro kv hkv
      intro he
      exact hdisj kv hkv (by rw [he]; exact List.mem_cons_self _ _)
    rw [buildDict.go, dictPut_fresh acc k v hfresh]
    rw [ih (acc ++ [(k, v)]) hdist.2 ?_]
    · simp
    · intro kv hkv
      rcases List.mem_append.mp hkv with hkv | hkv
      · exact fun hmem => hdisj kv hkv (List.mem_cons_of_mem _ hmem)
      · rw [List.mem_singleton] at hkv
        subst hkv
        exact hdist.1

/-- Scanned member pairs with distinct keys rebuild to themselves. -/
theorem buildDict_distinct (kvs : List (String × Json))
    (h : distinctKeys (kvs.map Prod.fst) = true) : buildDict kvs = kvs := by
  rw [buildDict, buildDict_go_fresh kvs [] h (by simp), List.nil_append]

theorem numStop_newline (l : List Char) : numStop ('\n' :: l) = true := by
  rw [numStop]
  decide

theorem numStop_comma (l : List Char) : numStop (',' :: l) = true := by
  rw [numStop]
  decide

/-- A value whose scan starts with a sign or digit is scanned by the number
grammar. -/
theorem parseVal_numArm (f : Nat) (cs : List Char) (c : Char) (t : List Char)
    (hdrop : dropWs cs = c :: t)
    (hn : c ≠ 'n') (ht : c ≠ 't') (hf2 : c ≠ 'f') (hq : c ≠ '"')
    (hbk : c ≠ '[') (hbc : c ≠ '{')
    (hg : (c == '-' || isDig c) = true) :
    parseVal (f + 1) cs = readNum (c :: t) := by
  rw [parseVal, hdrop]
  split
  · rename_i heq
    rw [List.cons.injEq] at heq
    exact absurd heq.1 hn
  · rename_i heq
    rw [List.cons.injEq] at heq
    exact absurd heq.1 ht
  · rename_i heq
    rw [List.cons.injEq] at heq
    exact absurd heq.1 hf2
  · rename_i heq
    rw [List.cons.injEq] at heq
    exact absurd heq.1 hq
  · rename_i heq
    rw [List.cons.injEq] at heq
    exact absurd heq.1 hbk
  · rename_i heq
    rw [List.cons.injEq] at heq
    exact absurd heq.1 hbc
  · rename_i heq
    rw [List.cons.injEq] at heq
    obtain ⟨rfl, rfl⟩ := heq
    rw [if_pos hg]
  · rename_i heq
    exact absurd heq (by simp)

/-! ## The codec round-trip -/

theorem numStop_jNewline (k : Nat) (x : List Char) :
    numStop (jNewline k ++ x) = true := by
  rw [jNewline, List.cons_append]
  exact numStop_newline _

/-- One scan step entering the array grammar. -/
theorem parseVal_arrArm (f : Nat) (cs r : List Char)
    (hdrop : dropWs cs = '[' :: r) :
    parseVal (f + 1) cs =
      (match dropWs r with
       | ']' :: r2 => some (.arr [], r2)
       | cs2 =>
           match parseElts f cs2 with
           | some p => some (.arr p.1, p.2)
           | none => none) := by
  rw [parseVal, hdrop]
  rfl

/-- One scan step entering the object grammar. -/
theorem parseVal_objArm (f : Nat) (cs r : List Char)
    (hdrop : dropWs cs = '{' :: r) :
    parseVal (f + 1) cs =
      (match dropWs r with
       | '}' :: r2 => some (.obj [], r2)
       | cs2 =>
           match parseMems f cs2 with
           | some p => some (.obj (buildDict p.1), p.2)
           | none => none) := by
  rw [parseVal, hdrop]
  rfl

/-- One scan step entering the string grammar. -/
theorem parseVal_strArm (f : Nat) (cs r : List Char)
    (hdrop : dropWs cs = '"' :: r) :
    parseVal (f + 1) cs =
      (match readStr r with
       | some p => some (.str ⟨p.1⟩, p.2)
       | none => none) := by
  rw [parseVal, hdrop]
  rfl

/-- One scan step at a member key. -/
theorem parseMems_keyArm (f : Nat) (cs r : List Char)
    (hdrop : dropWs cs = '"' :: r) :
    parseMems (f + 1) cs =
      (match readStr r with
       | none => none
       | some (k, r1) =>
           match dropWs r1 with
           | ':' :: r2 =>
               match parseVal f r2 with
               | none => none
               | some (v, r3) =>
                   match dropWs r3 with
                   | ',' :: r4 =>
                       match parseMems f r4 with
                       | some p => some ((⟨k⟩, v) :: p.1, p.2)
                       | none => none
                   | '}' :: r4 => some ([(⟨k⟩, v)], r4)
                   | _ => none
           | _ => none) := by
  rw [parseMems, hdrop]
  rfl

mutual

/-- Scanning a serialized value (after any leading whitespace) recovers it
exactly, leaving the delimiter-headed remainder untouched. -/
theorem rtVal : ∀ (v : Json) (lvl fuel : Nat) (pre rest : List Char),
    (∀ c ∈ pre, jsonWs c = true) → wfVal v = true →
    (dumpVal lvl v).length < fuel → numStop rest = true →
    parseVal fuel (pre ++ (dumpVal lvl v ++ rest)) = some (v, rest)
  | .null, lvl, fuel, pre, rest, hpre, _, hfuel, _ => by
    cases fuel with
    | zero => exact absurd hfuel (Nat.not_lt_zero _)
    | succ f =>
      rw [parseVal, dropWs_onto_dumpVal pre hpre lvl .null rest]
      simp [dumpVal]
  | .bool true, lvl, fuel, pre, rest, hpre, _, hfuel, _ => by
    cases fuel with
    | zero => exact absurd hfuel (Nat.not_lt_zero _)
    | succ f =>
      rw [parseVal, dropWs_onto_dumpVal pre hpre lvl (.bool true) rest]
      simp [dumpVal]
  | .bool false, lvl, fuel, pre, rest, hpre, _, hfuel, _ => by
    cases fuel with
    | zero => exact absurd hfuel (Nat.not_lt_zero _)
    | succ f =>
      rw [parseVal, dropWs_onto_dumpVal pre hpre lvl (.bool false) rest]
      simp [dumpVal]
  | .num n, lvl, fuel, pre, rest, hpre, _, hfuel, hstop => by
    cases fuel with
    | zero => exact absurd hfuel (Nat.not_lt_zero _)
    | succ f =>
      have hdrop := dropWs_onto_dumpVal pre hpre lvl (.num n) rest
      have hread := readNum_intChars n rest hstop
      by_cases hn : n < 0
      · have hform : dumpVal lvl (.num n) ++ rest =
            '-' :: (natChars n.natAbs ++ rest) := by
          simp [dumpVal, intChars, hn]
        rw [hform] at hdrop
        rw [hform, parseVal_numArm f _ '-' _ hdrop (by decide) (by decide)
          (by decide) (by decide) (by decide) (by decide) (by decide)]
        rw [show intChars n ++ rest = '-' :: (natChars n.natAbs ++ rest) from by
          simp [intChars, hn]] at hread
        exact hread
      · obtain ⟨c, t, hct⟩ : ∃ c t, natChars n.natAbs = c :: t := by
          rcases hh : natChars n.natAbs with _ | ⟨c, t⟩
          · exact absurd hh (natChars_ne_nil _)
          · exact ⟨c, t, rfl⟩
        have hcd : isDig c = true :=
          natChars_digits _ c (by rw [hct]; exact List.mem_cons_self _ _)
        obtain ⟨-, hn2, ht2, hf3, hq2, hbk2, hbc2, -, -⟩ := isDig_fences c hcd
        have hform : dumpVal lvl (.num n) ++ rest = c :: (t ++ rest) := by
          simp [dumpVal, intChars, hn, hct]
        rw [hform] at hdrop
        rw [hform, parseVal_numArm f _ c _ hdrop hn2 ht2 hf3 hq2 hbk2 hbc2
          (by simp [hcd])]
        rw [show intChars n ++ rest = c :: (t ++ rest) from by
          simp [intChars, hn, hct]] at hread
        exact hread
  | .str s, lvl, fuel, pre, rest, hpre, _, hfuel, _ => by
    cases fuel with
    | zero => exact absurd hfuel (Nat.not_lt_zero _)
    | succ f =>
      obtain ⟨sl⟩ := s
      have hform : dumpVal lvl (.str ⟨sl⟩) ++ rest =
          '"' :: (sl.flatMap escChar ++ ('"' :: rest)) := by
        simp [dumpVal, escString]
      have hdropS := dropWs_onto_dumpVal pre hpre lvl (.str ⟨sl⟩) rest
      rw [hform] at hdropS
      rw [hform, parseVal_strArm f _ _ hdropS, readStr_escaped sl rest]
  | .arr [], lvl, fuel, pre, rest, hpre, _, hfuel, _ => by
    cases fuel with
    | zero => exact absurd hfuel (Nat.not_lt_zero _)
    | succ f =>
      have hform : dumpVal lvl (.arr []) ++ rest = '[' :: (']' :: rest) := by
        simp [dumpVal]
      have hdropA := dropWs_onto_dumpVal pre hpre lvl (.arr []) rest
      rw [hform] at hdropA
      rw [hform, parseVal_arrArm f _ _ hdropA, dropWs_not_ws ']' (by decide)]
      rfl
  | .arr (x :: xs), lvl, fuel, pre, rest, hpre, hwf, hfuel, hstop => by
    cases fuel with
    | zero => exact absurd hfuel (Nat.not_lt_zero _)
    | succ f =>
      simp only [wfVal, wfElts, Bool.and_eq_true] at hwf
      have hlen : (dumpVal lvl (.arr (x :: xs))).length =
          (jNewline (lvl + 1)).length + (dumpVal (lvl + 1) x).length +
          (dumpMoreElts (lvl + 1) xs).length + (jNewline lvl).length + 2 := by
        simp [dumpVal, List.length_append]
        omega
      have hf4 : (dumpVal (lvl + 1) x).length +
          (dumpMoreElts (lvl + 1) xs).length + 1 < f := by
        rw [hlen] at hfuel
        have := jNewline_length (lvl + 1)
        have := jNewline_length lvl
        omega
      have hform : dumpVal lvl (.arr (x :: xs)) ++ rest =
          '[' :: (jNewline (lvl + 1) ++ (dumpVal (lvl + 1) x ++
            (dumpMoreElts (lvl + 1) xs ++ (jNewline lvl ++ (']' :: rest))))) := by
        simp [dumpVal, List.append_assoc]
      have hdropA := dropWs_onto_dumpVal pre hpre lvl (.arr (x :: xs)) rest
      rw [hform] at hdropA
      have hinner := rtElts x xs (lvl + 1) lvl f [] rest (by simp) hwf.1 hwf.2
        hf4 hstop
      rw [List.nil_append] at hinner
      have hdropb : dropWs (jNewline (lvl + 1) ++ (dumpVal (lvl + 1) x ++
          (dumpMoreElts (lvl + 1) xs ++ (jNewline lvl ++ (']' :: rest))))) =
          dumpVal (lvl + 1) x ++
            (dumpMoreElts (lvl + 1) xs ++ (jNewline lvl ++ (']' :: rest))) :=
        dropWs_onto_dumpVal _ (jNewline_ws _) _ x _
      obtain ⟨c, t, hct, -, hbr, -⟩ := dumpVal_head (lvl + 1) x
      rw [hct, List.cons_append] at hinner
      rw [hform, parseVal_arrArm f _ _ hdropA, hdropb]
      rw [hct, List.cons_append]
      split
      · rename_i heq
        rw [List.cons.injEq] at heq
        exact absurd heq.1 hbr
      · rw [hinner]
  | .obj [], lvl, fuel, pre, rest, hpre, _, hfuel, _ => by
    cases fuel with
    | zero => exact absurd hfuel (Nat.not_lt_zero _)
    | succ f =>
      have hform : dumpVal lvl (.obj []) ++ rest = '{' :: ('}' :: rest) := by
        simp [dumpVal]
      have hdropO := dropWs_onto_dumpVal pre hpre lvl (.obj []) rest
      rw [hform] at hdropO
      rw [hform, parseVal_objArm f _ _ hdropO, dropWs_not_ws '}' (by decide)]
      rfl
  | .obj (kv :: kvs), lvl, fuel, pre, rest, hpre, hwf, hfuel, hstop => by
    cases fuel with
    | zero => exact absurd hfuel (Nat.not_lt_zero _)
    | succ f =>
      simp only [wfVal, wfMems, List.map_cons, distinctKeys,
        Bool.and_eq_true] at hwf
      have hlen : (dumpVal lvl (.obj (kv :: kvs))).length =
          (jNewline (lvl + 1)).length + (escString kv.1).length +
          (dumpVal (lvl + 1) kv.2).length +
          (dumpMoreMembers (lvl + 1) kvs).length + (jNewline lvl).length + 4 := by
        simp [dumpVal, List.length_append]
        omega
      have hf4 : (dumpVal (lvl + 1) kv.2).length +
          (dumpMoreMembers (lvl + 1) kvs).length + 1 < f := by
        rw [hlen] at hfuel
        have := jNewline_length (lvl + 1)
        have := jNewline_length lvl
        omega
      have hform : dumpVal lvl (.obj (kv :: kvs)) ++ rest =
          '{' :: (jNewline (lvl + 1) ++ (escString kv.1 ++ (':' :: ' ' ::
            (dumpVal (lvl + 1) kv.2 ++ (dumpMoreMembers (lvl + 1) kvs ++
              (jNewline lvl ++ ('}' :: rest))))))) := by
        simp [dumpVal, List.append_assoc]
      have hdropO := dropWs_onto_dumpVal pre hpre lvl (.obj (kv :: kvs)) rest
      rw [hform] at hdropO
      have hinner := rtMems kv kvs (lvl + 1) lvl f [] rest (by simp)
        hwf.2.1 hwf.2.2 hf4 hstop
      rw [List.nil_append] at hinner
      have hK : escString kv.1 ++ (':' :: ' ' ::
          (dumpVal (lvl + 1) kv.2 ++ (dumpMoreMembers (lvl + 1) kvs ++
            (jNewline lvl ++ ('}' :: rest))))) =
          '"' :: (kv.1.data.flatMap escChar ++ ('"' :: (':' :: ' ' ::
          (dumpVal (lvl + 1) kv.2 ++ (dumpMoreMembers (lvl + 1) kvs ++
            (jNewline lvl ++ ('}' :: rest))))))) := by
        simp [escString]
      have hdropb : dropWs (jNewline (lvl + 1) ++ (escString kv.1 ++ (':' :: ' ' ::
          (dumpVal (lvl + 1) kv.2 ++ (dumpMoreMembers (lvl + 1) kvs ++
            (jNewline lvl ++ ('}' :: rest))))))) =
          '"' :: (kv.1.data.flatMap escChar ++ ('"' :: (':' :: ' ' ::
          (dumpVal (lvl + 1) kv.2 ++ (dumpMoreMembers (lvl + 1) kvs ++
            (jNewline lvl ++ ('}' :: rest))))))) := by
        rw [dropWs_past_ws_run _ (jNewline_ws _), hK]
        rw [← hK]
        rw [hK]
        exact dropWs_not_ws '"' (by decide) _
      rw [hK] at hinner
      rw [hform, parseVal_objArm f _ _ hdropO, hdropb]
      split
      · rename_i heq
        rw [List.cons.injEq] at heq
        exact absurd heq.1 (by decide)
      · simp only [hinner]
        rw [buildDict_distinct (kv :: kvs) (by
          simp only [List.map_cons, distinctKeys, Bool.and_eq_true]
          exact hwf.1)]
  termination_by v _ _ _ _ _ _ _ _ => sizeOf v

/-- Scanning the serialized items of a non-empty array recovers them. -/
theorem rtElts : ∀ (x : Json) (xs : List Json) (lvl clvl fuel : Nat)
    (pre rest : List Char),
    (∀ c ∈ pre, jsonWs c = true) → wfVal x = true → wfElts xs = true →
    (dumpVal lvl x).length + (dumpMoreElts lvl xs).length + 1 < fuel →
    numStop rest = true →
    parseElts fuel (pre ++ (dumpVal lvl x ++ (dumpMoreElts lvl xs ++
      (jNewline clvl ++ (']' :: rest))))) = some (x :: xs, rest)
  | x, [], lvl, clvl, fuel, pre, rest, hpre, hwfx, _, hfuel, hstop => by
    cases fuel with
    | zero => exact absurd hfuel (Nat.not_lt_zero _)
    | succ f =>
      have hv := rtVal x lvl f pre
        (dumpMoreElts lvl [] ++ (jNewline clvl ++ (']' :: rest))) hpre hwfx
        (by omega) (by rw [dumpMoreElts, List.nil_append]; exact numStop_jNewline _ _)
      rw [dumpMoreElts, List.nil_append] at hv
      rw [parseElts]
      simp only [dumpMoreElts, List.nil_append, hv,
        dropWs_past_ws_run _ (jNewline_ws clvl), dropWs_not_ws ']' (by decide)]
  | x, y :: ys, lvl, clvl, fuel, pre, rest, hpre, hwfx, hwfxs, hfuel, hstop => by
    cases fuel with
    | zero => exact absurd hfuel (Nat.not_lt_zero _)
    | succ f =>
      simp only [wfElts, Bool.and_eq_true] at hwfxs
      have hmore : dumpMoreElts lvl (y :: ys) ++ (jNewline clvl ++ (']' :: rest)) =
          ',' :: (jNewline lvl ++ (dumpVal lvl y ++ (dumpMoreElts lvl ys ++
            (jNewline clvl ++ (']' :: rest))))) := by
        simp [dumpMoreElts, List.append_assoc]
      have hlenm : (dumpMoreElts lvl (y :: ys)).length =
          (jNewline lvl).length + (dumpVal lvl y).length +
          (dumpMoreElts lvl ys).length + 1 := by
        simp [dumpMoreElts, List.length_append]
        omega
      have hxpos := dumpVal_length_pos lvl x
      have hv := rtVal x lvl f pre
        (dumpMoreElts lvl (y :: ys) ++ (jNewline clvl ++ (']' :: rest))) hpre hwfx
        (by omega) (by rw [hmore]; exact numStop_comma _)
      have hrec := rtElts y ys lvl clvl f (jNewline lvl) rest (jNewline_ws _)
        hwfxs.1 hwfxs.2 (by
          rw [hlenm] at hfuel
          have := jNewline_length lvl
          omega) hstop
      rw [hmore] at hv
      rw [parseElts]
      simp only [hmore, hv, dropWs_not_ws ',' (by decide), hrec]
  termination_by x xs _ _ _ _ _ _ _ _ _ _ => sizeOf x + sizeOf xs

/-- Scanning the serialized members of a non-empty object recovers the
member pairs in order. -/
theorem rtMems : ∀ (kv : String × Json) (kvs : List (String × Json))
    (lvl clvl fuel : Nat) (pre rest : List Char),
    (∀ c ∈ pre, jsonWs c = true) → wfVal kv.2 = true → wfMems kvs = true →
    (dumpVal lvl kv.2).length + (dumpMoreMembers lvl kvs).length + 1 < fuel →
    numStop rest = true →
    parseMems fuel (pre ++ (escString kv.1 ++ (':' :: ' ' ::
      (dumpVal lvl kv.2 ++ (dumpMoreMembers lvl kvs ++
        (jNewline clvl ++ ('}' :: rest))))))) = some (kv :: kvs, rest)
  | (k, v), [], lvl, clvl, fuel, pre, rest, hpre, hwfv, _, hfuel, hstop => by
    cases fuel with
    | zero => exact absurd hfuel (Nat.not_lt_zero _)
    | succ f =>
      obtain ⟨kl⟩ := k
      dsimp only at hfuel hwfv
      have hv := rtVal v lvl f [' ']
        (dumpMoreMembers lvl [] ++ (jNewline clvl ++ ('}' :: rest)))
        (by decide) hwfv (by omega)
        (by rw [dumpMoreMembers, List.nil_append]; exact numStop_jNewline _ _)
      rw [List.singleton_append, dumpMoreMembers, List.nil_append] at hv
      have hK : escString ⟨kl⟩ ++ (':' :: ' ' ::
          (dumpVal lvl v ++ (dumpMoreMembers lvl [] ++
            (jNewline clvl ++ ('}' :: rest))))) =
          '"' :: (kl.flatMap escChar ++ ('"' :: (':' :: ' ' ::
          (dumpVal lvl v ++ (dumpMoreMembers lvl [] ++
            (jNewline clvl ++ ('}' :: rest))))))) := by
        simp [escString]
      have hdropK : dropWs (pre ++ (escString ⟨kl⟩ ++ (':' :: ' ' ::
          (dumpVal lvl v ++ (dumpMoreMembers lvl [] ++
            (jNewline clvl ++ ('}' :: rest))))))) =
          '"' :: (kl.flatMap escChar ++ ('"' :: (':' :: ' ' ::
          (dumpVal lvl v ++ (dumpMoreMembers lvl [] ++
            (jNewline clvl ++ ('}' :: rest))))))) := by
        rw [dropWs_past_ws_run pre hpre, hK]
        exact dropWs_not_ws '"' (by decide) _
      rw [parseMems_keyArm f _ _ hdropK]
      simp only [dumpMoreMembers, List.nil_append, readStr_escaped kl,
        dropWs_not_ws ':' (by decide), hv,
        dropWs_past_ws_run _ (jNewline_ws clvl), dropWs_not_ws '}' (by decide)]
  | (k, v), kv2 :: kvs, lvl, clvl, fuel, pre, rest, hpre, hwfv, hwfm, hfuel,
      hstop => by
    cases fuel with
    | zero => exact absurd hfuel (Nat.not_lt_zero _)
    | succ f =>
      obtain ⟨kl⟩ := k
      dsimp only at hfuel hwfv
      simp only [wfMems, Bool.and_eq_true] at hwfm
      have hmore : dumpMoreMembers lvl (kv2 :: kvs) ++
          (jNewline clvl ++ ('}' :: rest)) =
          ',' :: (jNewline lvl ++ (escString kv2.1 ++ (':' :: ' ' ::
            (dumpVal lvl kv2.2 ++ (dumpMoreMembers lvl kvs ++
              (jNewline clvl ++ ('}' :: rest))))))) := by
        simp [dumpMoreMembers, List.append_assoc]
      have hlenm : (dumpMoreMembers lvl (kv2 :: kvs)).length =
          (jNewline lvl).length + (escString kv2.1).length +
          (dumpVal lvl kv2.2).length + (dumpMoreMembers lvl kvs).length + 3 := by
        simp [dumpMoreMembers, List.length_append]
        omega
      have hesc2 : 2 ≤ (escString kv2.1).length := by
        simp [escString]
      have hv := rtVal v lvl f [' ']
        (dumpMoreMembers lvl (kv2 :: kvs) ++ (jNewline clvl ++ ('}' :: rest)))
        (by decide) hwfv (by omega)
        (by rw [hmore]; exact numStop_comma _)
      rw [List.singleton_append, hmore] at hv
      have hrec := rtMems kv2 kvs lvl clvl f (jNewline lvl) rest (jNewline_ws _)
        hwfm.1 hwfm.2 (by
          rw [hlenm] at hfuel
          have := jNewline_length lvl
          omega) hstop
      have hK : escString ⟨kl⟩ ++ (':' :: ' ' ::
          (dumpVal lvl v ++ (dumpMoreMembers lvl (kv2 :: kvs) ++
            (jNewline clvl ++ ('}' :: rest))))) =
          '"' :: (kl.flatMap escChar ++ ('"' :: (':' :: ' ' ::
          (dumpVal lvl v ++ (dumpMoreMembers lvl (kv2 :: kvs) ++
            (jNewline clvl ++ ('}' :: rest))))))) := by
        simp [escString]
      have hdropK : dropWs (pre ++ (escString ⟨kl⟩ ++ (':' :: ' ' ::
          (dumpVal lvl v ++ (dumpMoreMembers lvl (kv2 :: kvs) ++
            (jNewline clvl ++ ('}' :: rest))))))) =
          '"' :: (kl.flatMap escChar ++ ('"' :: (':' :: ' ' ::
          (dumpVal lvl v ++ (dumpMoreMembers lvl (kv2 :: kvs) ++
            (jNewline clvl ++ ('}' :: rest))))))) := by
        rw [dropWs_past_ws_run pre hpre, hK]
        exact dropWs_not_ws '"' (by decide) _
      rw [parseMems_keyArm f _ _ hdropK]
      simp only [readStr_escaped kl, dropWs_not_ws ':' (by decide), hmore, hv,
        dropWs_not_ws ',' (by decide), hrec]
  termination_by kv kvs _ _ _ _ _ _ _ _ _ _ => sizeOf kv + sizeOf kvs

end

/-- **Codec round-trip**: re-parsing a pretty-printed document recovers it,
for every document whose objects have distinct keys (as every Python `dict`
tree does). -/
theorem loads_dumps (v : Json) (hwf : wfVal v = true) :
    loads (dumps v) = some v := by
  have hv := rtVal v 0 ((dumpVal 0 v).length + 1) [] [] (by simp) hwf
    (by omega) rfl
  rw [List.nil_append, List.append_nil] at hv
  rw [loads]
  rw [show (dumps v).data = dumpVal 0 v from rfl]
  rw [hv]
  rfl

/-! ## Request validation (`src/app.py` lines 92-107)

`validate_date_format` calls `datetime.strptime(date_string, '%Y-%m-%d')`
and returns whether it succeeds.  CPython's `_strptime` compiles the format
to the regex `(?P<Y>\d\d\d\d)-(?P<m>1[0-2]|0[1-9]|[1-9])-(?P<d>3[01]|[12]\d|0[1-9]|[1-9])`,
requires it to consume the whole string, and then builds
`datetime(year, month, day)`, which checks `1 ≤ year` and the real
calendar (month lengths, leap years).  Note the month and day may be a
single digit: `strptime` is NOT strict about zero padding. -/

/-- Gregorian leap-year rule, as `datetime` applies it. -/
def isLeapYear (y : Nat) : Bool :=
  y % 4 == 0 && (y % 100 != 0 || y % 400 == 0)

/-- Days in a month of the proleptic Gregorian calendar. -/
def daysInMonth (y m : Nat) : Nat :=
  if m == 2 then (if isLeapYear y then 29 else 28)
  else if m == 4 || m == 6 || m == 9 || m == 11 then 30
  else 31

/-- The day token: one or two digits, exactly at the end of the string. -/
def dayPart : List Char → Option Nat
  | [d1] => if isDig d1 then some (digitsVal [d1]) else none
  | [d1, d2] => if isDig d1 && isDig d2 then some (digitsVal [d1, d2]) else none
  | _ => none

/-- The month token (one or two digits), the literal `-`, then the day. -/
def monthDay : List Char → Option (Nat × Nat)
  | m1 :: '-' :: ds =>
      if isDig m1 then (dayPart ds).map (fun d => (digitsVal [m1], d)) else none
  | m1 :: m2 :: '-' :: ds =>
      if isDig m1 && isDig m2 then
        (dayPart ds).map (fun d => (digitsVal [m1, m2], d))
      else none
  | _ => none

/-- The shape `\d\d\d\d-<month>-<day>` of the whole string. -/
def dateParts (cs : List Char) : Option (Nat × Nat × Nat) :=
  match cs with
  | y1 :: y2 :: y3 :: y4 :: '-' :: rest =>
      if isDig y1 && isDig y2 && isDig y3 && isDig y4 then
        (monthDay rest).map
          (fun md => (digitsVal [y1, y2, y3, y4], md.1, md.2))
      else none
  | _ => none

/-- `validate_date_format` (`src/app.py` lines 92-98): `strptime` shape plus
`datetime` range/calendar checks.  The range conditions mirror the regex's
month/day alternations (values 1-12 and 1-31 over one or two digits) and
`datetime`'s `MINYEAR`/calendar validation. -/
def validate_date_format (date_string : String) : Bool :=
  match dateParts date_string.data with
  | some (y, m, d) =>
      1 ≤ y && 1 ≤ m && m ≤ 12 && 1 ≤ d && d ≤ 31 && d ≤ daysInMonth y m
  | none => false

/-- `isinstance(x, (int, float))`: true for `int`, `float`, and `bool`
(a subclass of `int` in Python). -/
def isNumeric : Json → Bool
  | .num _ => true
  | .bool _ => true
  | _ => false

/-- The numeric value Python's comparison operators see: `True == 1`,
`False == 0`. -/
def numValue : Json → Int
  | .num n => n
  | .bool true => 1
  | .bool false => 0
  | _ => 0

/-- `validate_coordinates` (`src/app.py` lines 101-107), translated clause
for clause. -/
def validate_coordinates (latitude longitude : Json) : Bool :=
  if ¬ (isNumeric latitude = true ∧ isNumeric longitude = true) then false
  else if ¬ (-90 ≤ numValue latitude ∧ numValue latitude ≤ 90) ∨
          ¬ (-180 ≤ numValue longitude ∧ numValue longitude ≤ 180) then false
  else true

/-! ## Python object helpers used by the handlers -/

/-- Characters of Python's `str(x)` for the objects the handlers
interpolate into the filename: numbers, booleans (`True`/`False`), strings,
`None`.  Containers never reach the interpolation (coordinates are
validated numeric and dates validated as strings first), so their `repr`
is not modelled. -/
def pyStr : Json → List Char
  | .num n => intChars n
  | .bool true => ['T', 'r', 'u', 'e']
  | .bool false => ['F', 'a', 'l', 's', 'e']
  | .str s => s.data
  | .null => ['N', 'o', 'n', 'e']
  | .arr _ => []
  | .obj _ => []

/-- Code-point lexicographic order, as Python compares `str` values. -/
def strLtChars : List Char → List Char → Bool
  | [], [] => false
  | [], _ :: _ => true
  | _ :: _, [] => false
  | a :: as2, b :: bs =>
      if a.toNat < b.toNat then true
      else if b.toNat < a.toNat then false
      else strLtChars as2 bs

/-- Python's `a > b` on strings. -/
def pyStrGt (a b : String) : Bool := strLtChars b.data a.data

/-- `needle` is a prefix of `hay`. -/
def leadsChars : List Char → List Char → Bool
  | [], _ => true
  | _ :: _, [] => false
  | a :: as2, b :: bs => a == b && leadsChars as2 bs

/-- Python's substring test `needle in hay` on strings. -/
def hasSubstring : List Char → List Char → Bool
  | needle, [] => leadsChars needle []
  | needle, c :: t => leadsChars needle (c :: t) || hasSubstring needle t

/-- Python's `field in data` for a parsed JSON body: key membership for a
`dict`, element equality for a `list`, substring for a `str`; `TypeError`
(modelled as `none`) for `None`, booleans and numbers. -/
def pyContains (data : Json) (field : String) : Option Bool :=
  match data with
  | .obj kvs => some (kvs.any (fun kv => kv.1 == field))
  | .arr xs => some (xs.any (fun x => x == Json.str field))
  | .str s => some (hasSubstring field.data s.data)
  | _ => none

/-- Python's `data[field]` for a parsed JSON body: `dict` lookup; every
other type raises (`TypeError`/`KeyError`), modelled as `none`. -/
def pyGetItem (data : Json) (field : String) : Option Json :=
  match data with
  | .obj kvs => (kvs.find? (fun kv => kv.1 == field)).map Prod.snd
  | _ => none

/-! ## Filename policy (`src/app.py` lines 60-63) -/

/-- A wall-clock reading, standing in for `datetime.now()`. -/
structure PyDateTime where
  year : Nat
  month : Nat
  day : Nat
  hour : Nat
  minute : Nat
  second : Nat

/-- A field value within a realistic clock reading, so that `strftime`'s
zero padding gives fixed widths. -/
def PyDateTime.realistic (t : PyDateTime) : Bool :=
  1000 ≤ t.year && t.year ≤ 9999 && 1 ≤ t.month && t.month ≤ 12 &&
  1 ≤ t.day && t.day ≤ 31 && t.hour ≤ 23 && t.minute ≤ 59 && t.second ≤ 59

/-- Zero-pad to two digits, as `strftime`'s `%m`/`%d`/`%H`/`%M`/`%S` do. -/
def pad2 (n : Nat) : List Char := if n < 10 then '0' :: natChars n else natChars n

/-- `datetime.now().strftime("%Y%m%d_%H%M%S")` (`src/app.py` line 62). -/
def strftimeCompact (t : PyDateTime) : List Char :=
  natChars t.year ++ (pad2 t.month ++ (pad2 t.day ++ '_' ::
    (pad2 t.hour ++ (pad2 t.minute ++ pad2 t.second))))

/-- `generate_filename` (`src/app.py` lines 60-63): the f-string
interpolation of the raw request values and the timestamp.  The clock
reading is a parameter here since the embedding is pure. -/
def generate_filename (latitude longitude : Json) (start_date end_date : String)
    (now : PyDateTime) : String :=
  ⟨"weather_data_lat".data ++ (pyStr latitude ++ ("_lon".data ++ (pyStr longitude ++
    ('_' :: (start_date.data ++ ("_to_".data ++ (end_date.data ++
    ('_' :: (strftimeCompact now ++ ".json".data)))))))))⟩

/-! ## The HTTP surface

The handlers become pure functions.  Request-independent effects are
explicit parameters: the Remote Weather Source call's outcome
(`FetchOutcome`, covering `fetch_weather_data`'s `requests` call — a
`RequestException` on timeout or, via `raise_for_status`, on a non-2xx
response), the Blob Store (`StorageMode`: `none`-client mock mode versus a
live bucket holding named blobs), and the clock.  The live bucket is
modelled as reachable: `get_bucket`'s own failure paths (which the generic
handler maps to 500) are outside the claims below. -/

/-- Outcome of `fetch_weather_data` (`src/app.py` lines 66-89): the parsed
JSON body, or the `requests.exceptions.RequestException` the handler maps
to 502. -/
inductive FetchOutcome where
  | ok (body : Json)
  | requestError

/-- The storage dependency: mock mode (`get_bucket()` returns `None`) or a
live bucket with its blobs (name, text content) in creation order. -/
inductive StorageMode where
  | mock
  | live (blobs : List (String × String))

/-- `blob.upload_from_string`: overwrite an existing object in place or
append a new one. -/
def putBlob (blobs : List (String × String)) (name content : String) :
    List (String × String) :=
  match blobs with
  | [] => [(name, content)]
  | (n, c) :: t =>
      if n = name then (n, content) :: t else (n, c) :: putBlob t name content

/-- `blob.exists()` / `blob.download_as_text()` combined: the stored text,
if the object exists. -/
def blobLookup (blobs : List (String × String)) (name : String) :
    Option String :=
  match blobs with
  | [] => none
  | (n, c) :: t => if n = name then some c else blobLookup t name

/-- An HTTP response: status code and JSON body, as `jsonify(...), code`
produces. -/
structure HttpResp where
  status : Nat
  body : Json
deriving Repr

/-- The `{"error": msg}` envelope every failure path returns. -/
def errorResp (status : Nat) (msg : String) : HttpResp :=
  ⟨status, .obj [("error", .str msg)]⟩

def msgNotJson : String := "Request must be JSON"
def msgMissing (field : String) : String := "Missing required field: " ++ field
def msgBadCoords : String := "Invalid latitude or longitude values"
def msgBadDate : String := "Invalid date format. Use YYYY-MM-DD"
def msgBadRange : String := "start_date must be before or equal to end_date"
def msgFetchFailed : String := "Failed to fetch weather data from Open-Meteo API"
def msgInternal : String := "Internal server error"
def msgNotFound : String := "File not found"
def msgBadJsonFile : String := "Invalid JSON file"
def msgStored : String := "Weather data stored successfully"
def msgMockList : String := "Running in mock mode - no files available"
def msgMockContent : String := "Running in mock mode - sample data returned"

/-- The incoming store request: `request.is_json` (content type says JSON)
and the body `request.get_json()` yields — `none` when parsing raises
(which the handler's generic `except` turns into a 500). -/
structure StoreRequest where
  is_json : Bool
  body : Option Json

def requiredFields : List String := ["latitude", "longitude", "start_date", "end_date"]

/-- The `for field in required_fields` membership loop (`src/app.py` lines
122-124): `none` when the first `in` test raises `TypeError`, otherwise the
first missing field if any. -/
def missingCheck (data : Json) : Option (Option String) :=
  go requiredFields
where
  /-- Walk the required fields in order. -/
  go : List String → Option (Option String)
    | [] => some none
    | f :: t =>
        match pyContains data f with
        | none => none
        | some true => go t
        | some false => some (some f)

/-- `POST /store-weather-data` (`src/app.py` lines 110-182), translated
branch for branch; returns the response and the storage state afterwards.
`TypeError`s (membership test on a non-container body, subscripting a
non-dict, `strptime` on a non-string) propagate to the generic
`except Exception` and become 500. -/
def store_weather_data (req : StoreRequest) (fetch : FetchOutcome)
    (storage : StorageMode) (now : PyDateTime) : HttpResp × StorageMode :=
  if req.is_json = false then (errorResp 400 msgNotJson, storage)
  else
    match req.body with
    | none => (errorResp 500 msgInternal, storage)
    | some data =>
      match missingCheck data with
      | none => (errorResp 500 msgInternal, storage)
      | some (some field) => (errorResp 400 (msgMissing field), storage)
      | some none =>
        match pyGetItem data "latitude", pyGetItem data "longitude",
              pyGetItem data "start_date", pyGetItem data "end_date" with
        | some latitude, some longitude, some start_date, some end_date =>
            if validate_coordinates latitude longitude = false then
              (errorResp 400 msgBadCoords, storage)
            else
              match start_date with
              | .str sd =>
                if validate_date_format sd = false then
                  (errorResp 400 msgBadDate, storage)
                else
                  match end_date with
                  | .str ed =>
                    if validate_date_format ed = false then
                      (errorResp 400 msgBadDate, storage)
                    else if pyStrGt sd ed then
                      (errorResp 400 msgBadRange, storage)
                    else
                      match fetch with
                      | .requestError => (errorResp 502 msgFetchFailed, storage)
                      | .ok weather_data =>
                        let filename :=
                          generate_filename latitude longitude sd ed now
                        let resp : HttpResp := ⟨201, .obj [
                          ("message", .str msgStored),
                          ("filename", .str filename),
                          ("location", .obj [("latitude", latitude),
                                             ("longitude", longitude)]),
                          ("date_range", .obj [("start_date", .str sd),
                                               ("end_date", .str ed)])]⟩
                        match storage with
                        | .mock => (resp, .mock)
                        | .live blobs =>
                            (resp, .live (putBlob blobs filename
                              (dumps weather_data)))
                  | _ => (errorResp 500 msgInternal, storage)
              | _ => (errorResp 500 msgInternal, storage)
        | _, _, _, _ => (errorResp 500 msgInternal, storage)

/-- `GET /list-weather-files` (`src/app.py` lines 185-217).  The model
tracks blob names and contents; GCS's size metadata is the content length
here, and the creation/update timestamps (not tracked by the model) appear
as `null`. -/
def list_weather_files (storage : StorageMode) : HttpResp :=
  match storage with
  | .mock => ⟨200, .obj [
      ("files", .arr []),
      ("count", .num 0),
      ("message", .str msgMockList)]⟩
  | .live blobs => ⟨200, .obj [
      ("files", .arr (blobs.map (fun b => Json.obj [
        ("filename", .str b.1),
        ("size", .num (b.2.length : Int)),
        ("created", .null),
        ("updated", .null)]))),
      ("count", .num (blobs.length : Int))]⟩

/-- A numeric leaf of the mock sample payload.  The Python literals here
are floats (52.52, 13.41, 5.0, -2.0); the model's numbers are integers
(header note), so a literal `m × 10^(-s)` is recorded by mantissa and
scale.  No claim depends on these numeric values. -/
def floatLit (mantissa : Int) (_scale : Nat) : Json := .num mantissa

/-- The fixed synthetic document mock mode serves (`src/app.py` lines
231-239): latitude 52.52, longitude 13.41, one day of temperatures. -/
def sampleWeatherData : Json := .obj [
  ("latitude", floatLit 5252 2),
  ("longitude", floatLit 1341 2),
  ("daily", .obj [
    ("time", .arr [.str "2023-01-01"]),
    ("temperature_2m_max", .arr [floatLit 50 1]),
    ("temperature_2m_min", .arr [floatLit (-20) 1])])]

/-- `GET /weather-file-content/<filename>` (`src/app.py` lines 220-261),
branch for branch: mock mode always serves the sample; a live bucket gives
404 for a missing object, 500 (`Invalid JSON file`) when the stored text
fails `json.loads`, and 200 with the parsed document otherwise. -/
def get_weather_file_content (filename : String) (storage : StorageMode) :
    HttpResp :=
  match storage with
  | .mock => ⟨200, .obj [
      ("filename", .str filename),
      ("message", .str msgMockContent),
      ("data", sampleWeatherData)]⟩
  | .live blobs =>
      match blobLookup blobs filename with
      | none => errorResp 404 msgNotFound
      | some content =>
          match loads content with
          | none => errorResp 500 msgBadJsonFile
          | some weather_data => ⟨200, .obj [
              ("filename", .str filename),
              ("data", weather_data)]⟩

/-! ## Support lemmas for the claims -/

/-- Writing a blob makes it readable with exactly the written content. -/
theorem blobLookup_putBlob (blobs : List (String × String))
    (name content : String) :
    blobLookup (putBlob blobs name content) name = some content := by
  induction blobs with
  | nil => simp [putBlob, blobLookup]
  | cons b t ih =>
    obtain ⟨n, c⟩ := b
    by_cases h : n = name
    · simp [putBlob, blobLookup, h]
    · simp [putBlob, blobLookup, h, ih]

/-- A fetch failure leaves every store request's outcome independent of the
storage and clock: helper giving the handler a uniform shape for the valid
path. -/
theorem store_valid_unfold (kvs : List (String × Json)) (lat lon : Json)
    (sd ed : String) (fetch : FetchOutcome) (storage : StorageMode)
    (now : PyDateTime)
    (hmiss : missingCheck (.obj kvs) = some none)
    (hlat : pyGetItem (.obj kvs) "latitude" = some lat)
    (hlon : pyGetItem (.obj kvs) "longitude" = some lon)
    (hsd : pyGetItem (.obj kvs) "start_date" = some (.str sd))
    (hed : pyGetItem (.obj kvs) "end_date" = some (.str ed))
    (hco : validate_coordinates lat lon = true)
    (hd1 : validate_date_format sd = true)
    (hd2 : validate_date_format ed = true)
    (hrange : pyStrGt sd ed = false) :
    store_weather_data ⟨true, some (.obj kvs)⟩ fetch storage now =
      match fetch with
      | .requestError => (errorResp 502 msgFetchFailed, storage)
      | .ok weather_data =>
          let filename := generate_filename lat lon sd ed now
          let resp : HttpResp := ⟨201, .obj [
            ("message", .str msgStored),
            ("filename", .str filename),
            ("location", .obj [("latitude", lat), ("longitude", lon)]),
            ("date_range", .obj [("start_date", .str sd),
                                 ("end_date", .str ed)])]⟩
          match storage with
          | .mock => (resp, .mock)
          | .live blobs =>
              (resp, .live (putBlob blobs filename (dumps weather_data))) := by
  simp only [store_weather_data, hmiss, hlat, hlon, hsd, hed, hco, hd1, hd2,
    hrange]
  rfl

/-- **C1.**  If the Remote Weather Source call fails (timeout or non-2xx,
i.e. a `RequestException`), a store request with valid input gets 502 with
the upstream error message, and the storage state is returned untouched:
the write is never reached. -/
theorem store_fetch_failure_returns_502_and_writes_nothing
    (kvs : List (String × Json)) (lat lon : Json) (sd ed : String)
    (storage : StorageMode) (now : PyDateTime)
    (hmiss : missingCheck (.obj kvs) = some none)
    (hlat : pyGetItem (.obj kvs) "latitude" = some lat)
    (hlon : pyGetItem (.obj kvs) "longitude" = some lon)
    (hsd : pyGetItem (.obj kvs) "start_date" = some (.str sd))
    (hed : pyGetItem (.obj kvs) "end_date" = some (.str ed))
    (hco : validate_coordinates lat lon = true)
    (hd1 : validate_date_format sd = true)
    (hd2 : validate_date_format ed = true)
    (hrange : pyStrGt sd ed = false) :
    store_weather_data ⟨true, some (.obj kvs)⟩ .requestError storage now =
      (errorResp 502 msgFetchFailed, storage) := by
  rw [store_valid_unfold kvs lat lon sd ed .requestError storage now hmiss hlat
    hlon hsd hed hco hd1 hd2 hrange]

/-- Witness for C1 at a concrete valid request against a live store. -/
theorem store_fetch_failure_returns_502_and_writes_nothing_witness :
    store_weather_data
      ⟨true, some (.obj [("latitude", .num 10), ("longitude", .num 20),
        ("start_date", .str "2023-01-01"), ("end_date", .str "2023-01-02")])⟩
      .requestError (.live [("old.json", "1")]) ⟨2023, 5, 7, 9, 30, 5⟩ =
      (errorResp 502 msgFetchFailed, .live [("old.json", "1")]) :=
  store_fetch_failure_returns_502_and_writes_nothing
    [("latitude", .num 10), ("longitude", .num 20),
     ("start_date", .str "2023-01-01"), ("end_date", .str "2023-01-02")]
    (.num 10) (.num 20) "2023-01-01" "2023-01-02"
    (.live [("old.json", "1")]) ⟨2023, 5, 7, 9, 30, 5⟩
    rfl rfl rfl rfl rfl rfl rfl rfl rfl

/-- **C5.**  Out-of-range or non-numeric coordinates stop a store request
with 400 and the coordinate-specific message, for every remote-source
outcome and with the storage returned untouched: the check precedes the
outbound call and any write. -/
theorem store_bad_coordinates_returns_400
    (kvs : List (String × Json)) (lat lon sdv edv : Json)
    (hmiss : missingCheck (.obj kvs) = some none)
    (hlat : pyGetItem (.obj kvs) "latitude" = some lat)
    (hlon : pyGetItem (.obj kvs) "longitude" = some lon)
    (hsd : pyGetItem (.obj kvs) "start_date" = some sdv)
    (hed : pyGetItem (.obj kvs) "end_date" = some edv)
    (hco : validate_coordinates lat lon = false) :
    ∀ (fetch : FetchOutcome) (storage : StorageMode) (now : PyDateTime),
      store_weather_data ⟨true, some (.obj kvs)⟩ fetch storage now =
        (errorResp 400 msgBadCoords, storage) := by
  intro fetch storage now
  simp only [store_weather_data, hmiss, hlat, hlon, hsd, hed, hco]
  rfl

/-- Witness for C5: latitude 100 is outside [-90, 90]. -/
theorem store_bad_coordinates_returns_400_witness :
    store_weather_data
      ⟨true, some (.obj [("latitude", .num 100), ("longitude", .num 20),
        ("start_date", .str "2023-01-01"), ("end_date", .str "2023-01-02")])⟩
      (.ok .null) (.live []) ⟨2023, 5, 7, 9, 30, 5⟩ =
      (errorResp 400 msgBadCoords, .live []) :=
  store_bad_coordinates_returns_400
    [("latitude", .num 100), ("longitude", .num 20),
     ("start_date", .str "2023-01-01"), ("end_date", .str "2023-01-02")]
    (.num 100) (.num 20) (.str "2023-01-01") (.str "2023-01-02")
    rfl rfl rfl rfl rfl rfl (.ok .null) (.live []) ⟨2023, 5, 7, 9, 30, 5⟩

/-- **C7.**  With both dates well-formed, the range check is exactly
Python's lexicographic string comparison: `start_date > end_date` gives 400
with the range message (before any outbound call, storage untouched), and
`start_date ≤ end_date` passes the check — the request can no longer be
rejected with a 400. -/
theorem store_range_check_is_lexicographic
    (kvs : List (String × Json)) (lat lon : Json) (sd ed : String)
    (hmiss : missingCheck (.obj kvs) = some none)
    (hlat : pyGetItem (.obj kvs) "latitude" = some lat)
    (hlon : pyGetItem (.obj kvs) "longitude" = some lon)
    (hsd : pyGetItem (.obj kvs) "start_date" = some (.str sd))
    (hed : pyGetItem (.obj kvs) "end_date" = some (.str ed))
    (hco : validate_coordinates lat lon = true)
    (hd1 : validate_date_format sd = true)
    (hd2 : validate_date_format ed = true) :
    (pyStrGt sd ed = true →
      ∀ (fetch : FetchOutcome) (storage : StorageMode) (now : PyDateTime),
        store_weather_data ⟨true, some (.obj kvs)⟩ fetch storage now =
          (errorResp 400 msgBadRange, storage)) ∧
    (pyStrGt sd ed = false →
      ∀ (fetch : FetchOutcome) (storage : StorageMode) (now : PyDateTime),
        (store_weather_data ⟨true, some (.obj kvs)⟩ fetch storage now).1.status
          ≠ 400) := by
  constructor
  · intro hgt fetch storage now
    simp only [store_weather_data, hmiss, hlat, hlon, hsd, hed, hco, hd1, hd2,
      hgt]
    rfl
  · intro hle fetch storage now
    rw [store_valid_unfold kvs lat lon sd ed fetch storage now hmiss hlat hlon
      hsd hed hco hd1 hd2 hle]
    cases fetch with
    | requestError => simp [errorResp]
    | ok weather_data => cases storage <;> simp

/-- Witness for C7 with `start = 2023-02-01 > end = 2023-01-01`. -/
theorem store_range_check_is_lexicographic_witness :
    pyStrGt "2023-02-01" "2023-01-01" = true ∧
    store_weather_data
      ⟨true, some (.obj [("latitude", .num 10), ("longitude", .num 20),
        ("start_date", .str "2023-02-01"), ("end_date", .str "2023-01-01")])⟩
      (.ok .null) .mock ⟨2023, 5, 7, 9, 30, 5⟩ =
      (errorResp 400 msgBadRange, .mock) :=
  ⟨rfl,
    (store_range_check_is_lexicographic
      [("latitude", .num 10), ("longitude", .num 20),
       ("start_date", .str "2023-02-01"), ("end_date", .str "2023-01-01")]
      (.num 10) (.num 20) "2023-02-01" "2023-01-01"
      rfl rfl rfl rfl rfl rfl rfl rfl).1 rfl (.ok .null) .mock
      ⟨2023, 5, 7, 9, 30, 5⟩⟩

/-- **C9.**  `validate_coordinates` accepts Python booleans: `bool` is an
`int` subclass with values 0 and 1, inside both ranges; consequently a
store request carrying boolean coordinates is never rejected with the
coordinate error. -/
theorem validate_coordinates_accepts_booleans :
    (∀ b c : Bool, validate_coordinates (.bool b) (.bool c) = true) ∧
    (∀ (b c : Bool) (sd ed : String) (fetch : FetchOutcome)
       (storage : StorageMode) (now : PyDateTime),
      pyGetItem (store_weather_data
        ⟨true, some (.obj [("latitude", .bool b), ("longitude", .bool c),
          ("start_date", .str sd), ("end_date", .str ed)])⟩
        fetch storage now).1.body "error" ≠ some (.str msgBadCoords)) := by
  have hset : ∀ b c : Bool, validate_coordinates (.bool b) (.bool c) = true := by
    intro b c
    cases b <;> cases c <;> rfl
  refine ⟨hset, ?_⟩
  intro b c sd ed fetch storage now
  have hmiss : missingCheck (.obj [("latitude", .bool b), ("longitude", .bool c),
      ("start_date", .str sd), ("end_date", .str ed)]) = some none := rfl
  have hlat : pyGetItem (.obj [("latitude", .bool b), ("longitude", .bool c),
      ("start_date", .str sd), ("end_date", .str ed)]) "latitude" =
      some (.bool b) := rfl
  have hlon : pyGetItem (.obj [("latitude", .bool b), ("longitude", .bool c),
      ("start_date", .str sd), ("end_date", .str ed)]) "longitude" =
      some (.bool c) := rfl
  have hsd : pyGetItem (.obj [("latitude", .bool b), ("longitude", .bool c),
      ("start_date", .str sd), ("end_date", .str ed)]) "start_date" =
      some (.str sd) := rfl
  have hed : pyGetItem (.obj [("latitude", .bool b), ("longitude", .bool c),
      ("start_date", .str sd), ("end_date", .str ed)]) "end_date" =
      some (.str ed) := rfl
  cases hd1 : validate_date_format sd with
  | false =>
    simp only [store_weather_data, hmiss, hlat, hlon, hsd, hed, hset b c, hd1]
    simp [errorResp, pyGetItem, msgBadDate, msgBadCoords]
  | true =>
    cases hd2 : validate_date_format ed with
    | false =>
      simp only [store_weather_data, hmiss, hlat, hlon, hsd, hed, hset b c,
        hd1, hd2]
      simp [errorResp, pyGetItem, msgBadDate, msgBadCoords]
    | true =>
      cases hgt : pyStrGt sd ed with
      | true =>
        simp only [store_weather_data, hmiss, hlat, hlon, hsd, hed, hset b c,
          hd1, hd2, hgt]
        simp [errorResp, pyGetItem, msgBadRange, msgBadCoords]
      | false =>
        rw [store_valid_unfold _ (.bool b) (.bool c) sd ed fetch storage now
          hmiss hlat hlon hsd hed (hset b c) hd1 hd2 hgt]
        cases fetch with
        | requestError =>
          simp [errorResp, pyGetItem, msgFetchFailed, msgBadCoords]
        | ok weather_data =>
          cases storage <;> simp [pyGetItem, msgStored]

/-- **C10.**  With the storage client unavailable (development/mock mode),
the read-one endpoint answers 200 with the fixed synthetic sample for every
filename — never 404 — and the listing endpoint answers 200 with an empty
file list and count 0. -/
theorem mock_mode_read_and_list :
    (∀ filename : String,
      (get_weather_file_content filename .mock).status = 200 ∧
      (get_weather_file_content filename .mock).status ≠ 404 ∧
      get_weather_file_content filename .mock = ⟨200, .obj [
        ("filename", .str filename),
        ("message", .str msgMockContent),
        ("data", sampleWeatherData)]⟩) ∧
    list_weather_files .mock = ⟨200, .obj [
      ("files", .arr []),
      ("count", .num 0),
      ("message", .str msgMockList)]⟩ := by
  refine ⟨fun filename => ⟨rfl, ?_, rfl⟩, rfl⟩
  intro h
  rw [show (get_weather_file_content filename .mock).status = 200 from rfl] at h
  exact absurd h (by decide)

/-- **C8.**  Against a live Blob Store, the read-one endpoint gives 404
when the filename is absent, 500 (`Invalid JSON file`) when the stored text
does not parse as JSON, and otherwise 200 with the filename and the parsed
document. -/
theorem read_one_live_semantics (filename : String)
    (blobs : List (String × String)) :
    (blobLookup blobs filename = none →
      get_weather_file_content filename (.live blobs) =
        errorResp 404 msgNotFound) ∧
    (∀ content, blobLookup blobs filename = some content →
      loads content = none →
      get_weather_file_content filename (.live blobs) =
        errorResp 500 msgBadJsonFile) ∧
    (∀ content doc, blobLookup blobs filename = some content →
      loads content = some doc →
      get_weather_file_content filename (.live blobs) =
        ⟨200, .obj [("filename", .str filename), ("data", doc)]⟩) := by
  refine ⟨?_, ?_, ?_⟩
  · intro h
    simp only [get_weather_file_content, h]
  · intro content h hl
    simp only [get_weather_file_content, h, hl]
  · intro content doc h hl
    simp only [get_weather_file_content, h, hl]

/-- Witness for C8: all three branches at concrete stores. -/
theorem read_one_live_semantics_witness :
    get_weather_file_content "absent.json" (.live [("a.json", "7")]) =
      errorResp 404 msgNotFound ∧
    get_weather_file_content "bad.json" (.live [("bad.json", "\x7b")]) =
      errorResp 500 msgBadJsonFile ∧
    get_weather_file_content "a.json" (.live [("a.json", "7")]) =
      ⟨200, .obj [("filename", .str "a.json"), ("data", .num 7)]⟩ :=
  ⟨(read_one_live_semantics "absent.json" [("a.json", "7")]).1 rfl,
   (read_one_live_semantics "bad.json" [("bad.json", "\x7b")]).2.1 "\x7b" rfl rfl,
   (read_one_live_semantics "a.json" [("a.json", "7")]).2.2 "7" (.num 7)
     rfl rfl⟩

/-- **C3, counterexample.**  The claim says every date string that is not
strict zero-padded `YYYY-MM-DD` is answered with 400, naming `2023-1-1` as
an example; but `strptime('%Y-%m-%d')` accepts one-digit months and days,
so the validator passes `2023-1-1` and this store request succeeds with
201, not 400. -/
theorem store_nonstrict_date_counterexample :
    validate_date_format "2023-1-1" = true ∧
    (store_weather_data
      ⟨true, some (.obj [("latitude", .num 10), ("longitude", .num 20),
        ("start_date", .str "2023-1-1"), ("end_date", .str "2023-1-2")])⟩
      (.ok .null) .mock ⟨2023, 5, 7, 9, 30, 5⟩).1.status = 201 :=
  ⟨rfl, rfl⟩

/-- **C3, amended.**  A store request whose start or end date is a string
rejected by Python's (zero-padding-lenient) `strptime('%Y-%m-%d')` check —
such as `2023/01/01` or `Jan 1 2023`, though not `2023-1-1` — is answered
400 with the date-format message, for every remote-source outcome, with
storage untouched. -/
theorem store_invalid_date_returns_400
    (kvs : List (String × Json)) (lat lon : Json) (sdv edv : Json)
    (hmiss : missingCheck (.obj kvs) = some none)
    (hlat : pyGetItem (.obj kvs) "latitude" = some lat)
    (hlon : pyGetItem (.obj kvs) "longitude" = some lon)
    (hsd : pyGetItem (.obj kvs) "start_date" = some sdv)
    (hed : pyGetItem (.obj kvs) "end_date" = some edv)
    (hco : validate_coordinates lat lon = true)
    (hbad : (∃ s, sdv = .str s ∧ validate_date_format s = false) ∨
      (∃ s t, sdv = .str s ∧ validate_date_format s = true ∧
        edv = .str t ∧ validate_date_format t = false)) :
    ∀ (fetch : FetchOutcome) (storage : StorageMode) (now : PyDateTime),
      store_weather_data ⟨true, some (.obj kvs)⟩ fetch storage now =
        (errorResp 400 msgBadDate, storage) := by
  intro fetch storage now
  rcases hbad with ⟨s, rfl, hf⟩ | ⟨s, t, rfl, ht, rfl, hf⟩
  · simp only [store_weather_data, hmiss, hlat, hlon, hsd, hed, hco, hf]
    rfl
  · simp only [store_weather_data, hmiss, hlat, hlon, hsd, hed, hco, ht, hf]
    rfl

/-- Witness for the amended C3 at `start_date = 2023/01/01`. -/
theorem store_invalid_date_returns_400_witness :
    store_weather_data
      ⟨true, some (.obj [("latitude", .num 10), ("longitude", .num 20),
        ("start_date", .str "2023/01/01"), ("end_date", .str "2023-01-02")])⟩
      (.ok .null) (.live []) ⟨2023, 5, 7, 9, 30, 5⟩ =
      (errorResp 400 msgBadDate, .live []) :=
  store_invalid_date_returns_400
    [("latitude", .num 10), ("longitude", .num 20),
     ("start_date", .str "2023/01/01"), ("end_date", .str "2023-01-02")]
    (.num 10) (.num 20) (.str "2023/01/01") (.str "2023-01-02")
    rfl rfl rfl rfl rfl rfl
    (Or.inl ⟨"2023/01/01", rfl, rfl⟩)
    (.ok .null) (.live []) ⟨2023, 5, 7, 9, 30, 5⟩

/-- **C2.**  Round-trip through the Blob Store: a successful store of
document `A` against a live bucket answers 201 carrying the generated
filename, and reading that filename back from the resulting bucket answers
200 with `data` equal to `A` — the bytes written by `json.dumps` parse back
to the original document.  (`wfVal A`: `A`'s objects have distinct keys,
true of any Python `dict` tree such as a parsed response body.) -/
theorem store_then_read_returns_stored_document
    (kvs : List (String × Json)) (lat lon : Json) (sd ed : String)
    (blobs : List (String × String)) (now : PyDateTime) (A : Json)
    (hmiss : missingCheck (.obj kvs) = some none)
    (hlat : pyGetItem (.obj kvs) "latitude" = some lat)
    (hlon : pyGetItem (.obj kvs) "longitude" = some lon)
    (hsd : pyGetItem (.obj kvs) "start_date" = some (.str sd))
    (hed : pyGetItem (.obj kvs) "end_date" = some (.str ed))
    (hco : validate_coordinates lat lon = true)
    (hd1 : validate_date_format sd = true)
    (hd2 : validate_date_format ed = true)
    (hrange : pyStrGt sd ed = false)
    (hwf : wfVal A = true) :
    (store_weather_data ⟨true, some (.obj kvs)⟩ (.ok A) (.live blobs) now).1.status
        = 201 ∧
    pyGetItem (store_weather_data ⟨true, some (.obj kvs)⟩ (.ok A) (.live blobs)
        now).1.body "filename" =
      some (.str (generate_filename lat lon sd ed now)) ∧
    get_weather_file_content (generate_filename lat lon sd ed now)
        (store_weather_data ⟨true, some (.obj kvs)⟩ (.ok A) (.live blobs) now).2 =
      ⟨200, .obj [("filename", .str (generate_filename lat lon sd ed now)),
                  ("data", A)]⟩ := by
  rw [store_valid_unfold kvs lat lon sd ed (.ok A) (.live blobs) now hmiss hlat
    hlon hsd hed hco hd1 hd2 hrange]
  refine ⟨rfl, rfl, ?_⟩
  show get_weather_file_content (generate_filename lat lon sd ed now)
    (.live (putBlob blobs (generate_filename lat lon sd ed now) (dumps A))) = _
  simp only [get_weather_file_content, blobLookup_putBlob, loads_dumps A hwf]

/-- Witness for C2 with a nested document. -/
theorem store_then_read_returns_stored_document_witness :
    (store_weather_data
      ⟨true, some (.obj [("latitude", .num 10), ("longitude", .num 20),
        ("start_date", .str "2023-01-01"), ("end_date", .str "2023-01-02")])⟩
      (.ok (.obj [("daily", .arr [.num 1, .str "a b", .null, .bool true])]))
      (.live [("other.json", "7")]) ⟨2023, 5, 7, 9, 30, 5⟩).1.status = 201 ∧
    pyGetItem (store_weather_data
      ⟨true, some (.obj [("latitude", .num 10), ("longitude", .num 20),
        ("start_date", .str "2023-01-01"), ("end_date", .str "2023-01-02")])⟩
      (.ok (.obj [("daily", .arr [.num 1, .str "a b", .null, .bool true])]))
      (.live [("other.json", "7")]) ⟨2023, 5, 7, 9, 30, 5⟩).1.body "filename" =
      some (.str (generate_filename (.num 10) (.num 20) "2023-01-01"
        "2023-01-02" ⟨2023, 5, 7, 9, 30, 5⟩)) ∧
    get_weather_file_content (generate_filename (.num 10) (.num 20) "2023-01-01"
        "2023-01-02" ⟨2023, 5, 7, 9, 30, 5⟩)
      (store_weather_data
        ⟨true, some (.obj [("latitude", .num 10), ("longitude", .num 20),
          ("start_date", .str "2023-01-01"), ("end_date", .str "2023-01-02")])⟩
        (.ok (.obj [("daily", .arr [.num 1, .str "a b", .null, .bool true])]))
        (.live [("other.json", "7")]) ⟨2023, 5, 7, 9, 30, 5⟩).2 =
      ⟨200, .obj [("filename", .str (generate_filename (.num 10) (.num 20)
        "2023-01-01" "2023-01-02" ⟨2023, 5, 7, 9, 30, 5⟩)),
        ("data", .obj [("daily", .arr [.num 1, .str "a b", .null, .bool true])])]⟩ :=
  store_then_read_returns_stored_document
    [("latitude", .num 10), ("longitude", .num 20),
     ("start_date", .str "2023-01-01"), ("end_date", .str "2023-01-02")]
    (.num 10) (.num 20) "2023-01-01" "2023-01-02" [("other.json", "7")]
    ⟨2023, 5, 7, 9, 30, 5⟩
    (.obj [("daily", .arr [.num 1, .str "a b", .null, .bool true])])
    rfl rfl rfl rfl rfl rfl rfl rfl rfl
    (by simp [wfVal, wfElts, wfMems, distinctKeys])

/-! ### Digit-width lemmas for the filename timestamp -/

theorem natChars_len_one (n : Nat) (h : n < 10) : (natChars n).length = 1 := by
  rw [natChars.eq_def]
  simp [h]

theorem natChars_step (n : Nat) (h : ¬ n < 10) :
    natChars n = natChars (n / 10) ++ [digitChar (n % 10)] := by
  rw [natChars.eq_def]
  simp [h]

theorem natChars_len_four (n : Nat) (h1 : 1000 ≤ n) (h2 : n ≤ 9999) :
    (natChars n).length = 4 := by
  rw [natChars_step n (by omega), natChars_step (n / 10) (by omega),
    natChars_step (n / 10 / 10) (by omega)]
  simp [natChars_len_one (n / 10 / 10 / 10) (by omega)]

theorem pad2_length (n : Nat) (h : n < 100) : (pad2 n).length = 2 := by
  rw [pad2]
  by_cases h10 : n < 10
  · simp [h10, natChars_len_one n h10]
  · rw [if_neg h10, natChars_step n h10]
    simp [natChars_len_one (n / 10) (by omega)]

theorem pad2_digits (n : Nat) : ∀ c ∈ pad2 n, isDig c = true := by
  intro c hc
  rw [pad2] at hc
  by_cases h10 : n < 10
  · rw [if_pos h10] at hc
    rcases List.mem_cons.mp hc with hc | hc
    · subst hc
      decide
    · exact natChars_digits n c hc
  · rw [if_neg h10] at hc
    exact natChars_digits n c hc

/-- For a realistic clock reading, the timestamp has the documented
`YYYYMMDD_HHMMSS` shape: eight digits, an underscore, six digits. -/
theorem strftimeCompact_shape (t : PyDateTime) (hp : t.realistic = true) :
    ∃ d8 d6 : List Char, strftimeCompact t = d8 ++ '_' :: d6 ∧
      d8.length = 8 ∧ d6.length = 6 ∧
      (∀ c ∈ d8, isDig c = true) ∧ (∀ c ∈ d6, isDig c = true) := by
  simp only [PyDateTime.realistic, Bool.and_eq_true, decide_eq_true_eq] at hp
  refine ⟨natChars t.year ++ (pad2 t.month ++ pad2 t.day),
    pad2 t.hour ++ (pad2 t.minute ++ pad2 t.second), ?_, ?_, ?_, ?_, ?_⟩
  · simp [strftimeCompact, List.append_assoc]
  · rw [List.length_append, List.length_append,
      natChars_len_four t.year (by omega) (by omega),
      pad2_length t.month (by omega), pad2_length t.day (by omega)]
  · rw [List.length_append, List.length_append,
      pad2_length t.hour (by omega), pad2_length t.minute (by omega),
      pad2_length t.second (by omega)]
  · intro c hc
    rcases List.mem_append.mp hc with hc | hc
    · exact natChars_digits t.year c hc
    · rcases List.mem_append.mp hc with hc | hc
      · exact pad2_digits t.month c hc
      · exact pad2_digits t.day c hc
  · intro c hc
    rcases List.mem_append.mp hc with hc | hc
    · exact pad2_digits t.hour c hc
    · rcases List.mem_append.mp hc with hc | hc
      · exact pad2_digits t.minute c hc
      · exact pad2_digits t.second c hc

/-- **C6.**  A valid store request against a reachable remote source
answers 201; the response carries the generated filename, which follows the
pattern `weather_data_lat<lat>_lon<lon>_<start>_to_<end>_<YYYYMMDD_HHMMSS>.json`
built from the request's own values (with the timestamp in eight-digit
date, underscore, six-digit time shape), and the location and date_range
fields echo the request exactly. -/
theorem store_success_201_filename_pattern_and_echo
    (kvs : List (String × Json)) (lat lon : Json) (sd ed : String) (A : Json)
    (storage : StorageMode) (now : PyDateTime)
    (hmiss : missingCheck (.obj kvs) = some none)
    (hlat : pyGetItem (.obj kvs) "latitude" = some lat)
    (hlon : pyGetItem (.obj kvs) "longitude" = some lon)
    (hsd : pyGetItem (.obj kvs) "start_date" = some (.str sd))
    (hed : pyGetItem (.obj kvs) "end_date" = some (.str ed))
    (hco : validate_coordinates lat lon = true)
    (hd1 : validate_date_format sd = true)
    (hd2 : validate_date_format ed = true)
    (hrange : pyStrGt sd ed = false)
    (hnow : now.realistic = true) :
    (store_weather_data ⟨true, some (.obj kvs)⟩ (.ok A) storage now).1.status
        = 201 ∧
    pyGetItem (store_weather_data ⟨true, some (.obj kvs)⟩ (.ok A) storage
        now).1.body "filename" =
      some (.str (generate_filename lat lon sd ed now)) ∧
    (generate_filename lat lon sd ed now).data =
      "weather_data_lat".data ++ (pyStr lat ++ ("_lon".data ++ (pyStr lon ++
        ('_' :: (sd.data ++ ("_to_".data ++ (ed.data ++
        ('_' :: (strftimeCompact now ++ ".json".data))))))))) ∧
    (∃ d8 d6 : List Char, strftimeCompact now = d8 ++ '_' :: d6 ∧
      d8.length = 8 ∧ d6.length = 6 ∧
      (∀ c ∈ d8, isDig c = true) ∧ (∀ c ∈ d6, isDig c = true)) ∧
    pyGetItem (store_weather_data ⟨true, some (.obj kvs)⟩ (.ok A) storage
        now).1.body "location" =
      some (.obj [("latitude", lat), ("longitude", lon)]) ∧
    pyGetItem (store_weather_data ⟨true, some (.obj kvs)⟩ (.ok A) storage
        now).1.body "date_range" =
      some (.obj [("start_date", .str sd), ("end_date", .str ed)]) := by
  rw [store_valid_unfold kvs lat lon sd ed (.ok A) storage now hmiss hlat hlon
    hsd hed hco hd1 hd2 hrange]
  cases storage with
  | mock =>
    exact ⟨rfl, rfl, rfl, strftimeCompact_shape now hnow, rfl, rfl⟩
  | live blobs =>
    exact ⟨rfl, rfl, rfl, strftimeCompact_shape now hnow, rfl, rfl⟩

/-- Witness for C6 at a concrete valid request. -/
theorem store_success_201_filename_pattern_and_echo_witness :
    (store_weather_data
      ⟨true, some (.obj [("latitude", .num 10), ("longitude", .num 20),
        ("start_date", .str "2023-01-01"), ("end_date", .str "2023-01-02")])⟩
      (.ok .null) .mock ⟨2023, 5, 7, 9, 30, 5⟩).1.status = 201 ∧
    pyGetItem (store_weather_data
      ⟨true, some (.obj [("latitude", .num 10), ("longitude", .num 20),
        ("start_date", .str "2023-01-01"), ("end_date", .str "2023-01-02")])⟩
      (.ok .null) .mock ⟨2023, 5, 7, 9, 30, 5⟩).1.body "filename" =
      some (.str (generate_filename (.num 10) (.num 20) "2023-01-01"
        "2023-01-02" ⟨2023, 5, 7, 9, 30, 5⟩)) ∧
    (generate_filename (.num 10) (.num 20) "2023-01-01" "2023-01-02"
        ⟨2023, 5, 7, 9, 30, 5⟩).data =
      "weather_data_lat".data ++ (pyStr (.num 10) ++ ("_lon".data ++
        (pyStr (.num 20) ++ ('_' :: ("2023-01-01".data ++ ("_to_".data ++
        ("2023-01-02".data ++ ('_' :: (strftimeCompact ⟨2023, 5, 7, 9, 30, 5⟩ ++
        ".json".data))))))))) ∧
    (∃ d8 d6 : List Char,
      strftimeCompact ⟨2023, 5, 7, 9, 30, 5⟩ = d8 ++ '_' :: d6 ∧
      d8.length = 8 ∧ d6.length = 6 ∧
      (∀ c ∈ d8, isDig c = true) ∧ (∀ c ∈ d6, isDig c = true)) ∧
    pyGetItem (store_weather_data
      ⟨true, some (.obj [("latitude", .num 10), ("longitude", .num 20),
        ("start_date", .str "2023-01-01"), ("end_date", .str "2023-01-02")])⟩
      (.ok .null) .mock ⟨2023, 5, 7, 9, 30, 5⟩).1.body "location" =
      some (.obj [("latitude", .num 10), ("longitude", .num 20)]) ∧
    pyGetItem (store_weather_data
      ⟨true, some (.obj [("latitude", .num 10), ("longitude", .num 20),
        ("start_date", .str "2023-01-01"), ("end_date", .str "2023-01-02")])⟩
      (.ok .null) .mock ⟨2023, 5, 7, 9, 30, 5⟩).1.body "date_range" =
      some (.obj [("start_date", .str "2023-01-01"),
                  ("end_date", .str "2023-01-02")]) :=
  store_success_201_filename_pattern_and_echo
    [("latitude", .num 10), ("longitude", .num 20),
     ("start_date", .str "2023-01-01"), ("end_date", .str "2023-01-02")]
    (.num 10) (.num 20) "2023-01-01" "2023-01-02" .null .mock
    ⟨2023, 5, 7, 9, 30, 5⟩ rfl rfl rfl rfl rfl rfl rfl rfl rfl rfl

/-! ### The membership loop on object bodies -/

/-- On a `dict` body the membership loop never raises: it either passes
every field (and then each field really is a key) or stops at the first
missing field. -/
theorem missingCheck_go_obj (kvs : List (String × Json)) :
    ∀ fields : List String,
      (missingCheck.go (.obj kvs) fields = some none ∧
        ∀ f ∈ fields, kvs.any (fun kv => kv.1 == f) = true) ∨
      (∃ f, f ∈ fields ∧ missingCheck.go (.obj kvs) fields = some (some f)) := by
  intro fields
  induction fields with
  | nil => exact Or.inl ⟨rfl, by simp⟩
  | cons f t ih =>
    cases h : kvs.any (fun kv => kv.1 == f) with
    | false =>
      refine Or.inr ⟨f, List.mem_cons_self _ _, ?_⟩
      simp [missingCheck.go, pyContains, h]
    | true =>
      rcases ih with ⟨hgo, hall⟩ | ⟨g, hg, hgo⟩
      · refine Or.inl ⟨?_, ?_⟩
        · simp [missingCheck.go, pyContains, h, hgo]
        · intro x hx
          rcases List.mem_cons.mp hx with hx | hx
          · rw [hx]
            exact h
          · exact hall x hx
      · refine Or.inr ⟨g, List.mem_cons_of_mem _ hg, ?_⟩
        simp [missingCheck.go, pyContains, h, hgo]

/-- A field the membership test confirms can be subscripted. -/
theorem pyGetItem_of_any (kvs : List (String × Json)) (f : String)
    (h : kvs.any (fun kv => kv.1 == f) = true) :
    ∃ v, pyGetItem (.obj kvs) f = some v := by
  have hs : (kvs.find? (fun kv => kv.1 == f)).isSome := by
    rw [List.find?_isSome]
    rw [List.any_eq_true] at h
    exact h
  obtain ⟨kv, hkv⟩ := Option.isSome_iff_exists.mp hs
  refine ⟨kv.2, ?_⟩
  simp [pyGetItem, hkv]

/-- The messages of the validation-failure responses. -/
def validationErrorMsgs : List String :=
  [msgMissing "latitude", msgMissing "longitude", msgMissing "start_date",
   msgMissing "end_date", msgBadCoords, msgBadDate, msgBadRange]

/-- **C4, amended.**  For a store request whose body is a JSON object and
whose date fields, when reached, hold strings, every validation failure is
answered with 400 and a message naming the failed check, the storage
untouched — the 500 branch is unreachable: the outcome is a validation
400, a 201, or the upstream 502.  (The original claim's unrestricted form
is false: a body that is not an object — e.g. `null` — makes the
membership test raise and lands in the generic 500 handler, as does a
non-string date, which makes `strptime` raise `TypeError` past the
`except ValueError`.) -/
theorem store_object_body_validation_is_client_error
    (kvs : List (String × Json))
    (hdates : ∀ v : Json,
      (pyGetItem (.obj kvs) "start_date" = some v ∨
       pyGetItem (.obj kvs) "end_date" = some v) → ∃ s, v = Json.str s) :
    ∀ (fetch : FetchOutcome) (storage : StorageMode) (now : PyDateTime),
      (∃ m, m ∈ validationErrorMsgs ∧
        store_weather_data ⟨true, some (.obj kvs)⟩ fetch storage now =
          (errorResp 400 m, storage)) ∨
      (store_weather_data ⟨true, some (.obj kvs)⟩ fetch storage now).1.status
        = 201 ∨
      (store_weather_data ⟨true, some (.obj kvs)⟩ fetch storage now).1 =
        errorResp 502 msgFetchFailed := by
  intro fetch storage now
  rcases missingCheck_go_obj kvs requiredFields with ⟨hgo, hall⟩ | ⟨f, hf, hgo⟩
  · -- every required field present
    have hmc : missingCheck (.obj kvs) = some none := hgo
    obtain ⟨lat, hlat⟩ := pyGetItem_of_any kvs "latitude"
      (hall "latitude" (by simp [requiredFields]))
    obtain ⟨lon, hlon⟩ := pyGetItem_of_any kvs "longitude"
      (hall "longitude" (by simp [requiredFields]))
    obtain ⟨sdv, hsdv⟩ := pyGetItem_of_any kvs "start_date"
      (hall "start_date" (by simp [requiredFields]))
    obtain ⟨edv, hedv⟩ := pyGetItem_of_any kvs "end_date"
      (hall "end_date" (by simp [requiredFields]))
    obtain ⟨sd, rfl⟩ := hdates sdv (Or.inl hsdv)
    obtain ⟨ed, rfl⟩ := hdates edv (Or.inr hedv)
    cases hco : validate_coordinates lat lon with
    | false =>
      refine Or.inl ⟨msgBadCoords, by simp [validationErrorMsgs], ?_⟩
      simp only [store_weather_data, hmc, hlat, hlon, hsdv, hedv, hco]
      rfl
    | true =>
      cases hd1 : validate_date_format sd with
      | false =>
        refine Or.inl ⟨msgBadDate, by simp [validationErrorMsgs], ?_⟩
        simp only [store_weather_data, hmc, hlat, hlon, hsdv, hedv, hco, hd1]
        rfl
      | true =>
        cases hd2 : validate_date_format ed with
        | false =>
          refine Or.inl ⟨msgBadDate, by simp [validationErrorMsgs], ?_⟩
          simp only [store_weather_data, hmc, hlat, hlon, hsdv, hedv, hco,
            hd1, hd2]
          rfl
        | true =>
          cases hgt : pyStrGt sd ed with
          | true =>
            refine Or.inl ⟨msgBadRange, by simp [validationErrorMsgs], ?_⟩
            simp only [store_weather_data, hmc, hlat, hlon, hsdv, hedv, hco,
              hd1, hd2, hgt]
            rfl
          | false =>
            rw [store_valid_unfold kvs lat lon sd ed fetch storage now hmc
              hlat hlon hsdv hedv hco hd1 hd2 hgt]
            cases fetch with
            | requestError => exact Or.inr (Or.inr rfl)
            | ok weather_data =>
              refine Or.inr (Or.inl ?_)
              cases storage <;> rfl
  · -- a required field is missing: 400 with that field's message
    have hmc : missingCheck (.obj kvs) = some (some f) := hgo
    refine Or.inl ⟨msgMissing f, ?_, ?_⟩
    · simp only [requiredFields, List.mem_cons, List.mem_singleton] at hf
      rcases hf with rfl | rfl | rfl | rfl | hf
      · simp [validationErrorMsgs]
      · simp [validationErrorMsgs]
      · simp [validationErrorMsgs]
      · simp [validationErrorMsgs]
      · exact absurd hf (List.not_mem_nil f)
    · simp only [store_weather_data, hmc]
      rfl

/-- Witness for the amended C4: a request missing `longitude` gets the
field-specific 400. -/
theorem store_object_body_validation_is_client_error_witness :
    (∃ m, m ∈ validationErrorMsgs ∧
      store_weather_data ⟨true, some (.obj [("latitude", .num 10)])⟩
        (.ok .null) .mock ⟨2023, 5, 7, 9, 30, 5⟩ =
        (errorResp 400 m, .mock)) ∨
    (store_weather_data ⟨true, some (.obj [("latitude", .num 10)])⟩
      (.ok .null) .mock ⟨2023, 5, 7, 9, 30, 5⟩).1.status = 201 ∨
    (store_weather_data ⟨true, some (.obj [("latitude", .num 10)])⟩
      (.ok .null) .mock ⟨2023, 5, 7, 9, 30, 5⟩).1 =
      errorResp 502 msgFetchFailed :=
  store_object_body_validation_is_client_error [("latitude", .num 10)]
    (fun v hv => by
      rcases hv with hv | hv <;> simp [pyGetItem] at hv)
    (.ok .null) .mock ⟨2023, 5, 7, 9, 30, 5⟩

/-- **C4, counterexample.**  A JSON body of `null` is a validation-path
input (`request.is_json` holds, the body parses), yet the membership test
`'latitude' in None` raises `TypeError` and the request is answered by the
generic 500 handler, not a 400. -/
theorem store_null_body_reaches_500_counterexample :
    (store_weather_data ⟨true, some .null⟩ (.ok .null) .mock
      ⟨2023, 1, 1, 0, 0, 0⟩).1 = errorResp 500 msgInternal ∧
    (store_weather_data ⟨true, some .null⟩ (.ok .null) .mock
      ⟨2023, 1, 1, 0, 0, 0⟩).1.status ≠ 400 := by
  refine ⟨rfl, ?_⟩
  intro h
  rw [show (store_weather_data ⟨true, some .null⟩ (.ok .null) .mock
    ⟨2023, 1, 1, 0, 0, 0⟩).1.status = 500 from rfl] at h
  exact absurd h (by decide)

end WeatherGateway
